import Mathlib

/-
  Verification development for the Energy Bodies motion-to-signal pipeline
  (src/js/sketch.js, src/eb-init.js).  JavaScript numbers reaching the
  modelled arithmetic are IEEE doubles; every finite double is a rational
  number, so finite values are embedded exactly as rationals and the
  non-finite values (NaN and the infinities) as `none`.  Decimal literals
  in the source are embedded as the corresponding decimal rationals.
-/

namespace EnergyBodies

/- A JavaScript number: finite (a rational) or non-finite (`none`).
   `Number.isFinite x` corresponds to `x.isSome`. -/
abbrev JNum := Option ℚ

/-- Embeds class `OnlineMean` (sketch.js lines 134-141): a running mean
together with its own sample counter. -/
structure OnlineMean where
  mean : ℚ
  n : ℕ
deriving DecidableEq

/-- Fresh `OnlineMean` as built by its constructor. -/
def OnlineMean.init : OnlineMean := ⟨0, 0⟩

/-- Embeds `OnlineMean.add`: a non-finite value returns immediately,
otherwise the counter increments first and the mean moves by
`(x - mean) / n` with the incremented counter. -/
def OnlineMean.add (s : OnlineMean) (x : JNum) : OnlineMean :=
  match x with
  | none => s
  | some q => { n := s.n + 1, mean := s.mean + (q - s.mean) / (s.n + 1) }

/-- Embeds class `OnlineMeanArray` (sketch.js lines 143-160): a vector of
running means sharing one sample counter. -/
structure OnlineMeanArray where
  means : List ℚ
  n : ℕ
deriving DecidableEq

/-- Fresh `OnlineMeanArray` of the given length. -/
def OnlineMeanArray.init (len : ℕ) : OnlineMeanArray := ⟨List.replicate len 0, 0⟩

/-- Embeds `OnlineMeanArray.add`: an empty array returns immediately; a
length mismatch replaces `means` with a zero vector of the new length
(the counter `n` is NOT reset); then `n` increments once and every finite
element moves its mean by `(x - mean) / n`, non-finite elements being
skipped. -/
def OnlineMeanArray.add (s : OnlineMeanArray) (arr : List JNum) : OnlineMeanArray :=
  if arr.length = 0 then s
  else
    let means0 := if s.means.length ≠ arr.length then List.replicate arr.length 0 else s.means
    let n' := s.n + 1
    { n := n'
      means := (means0.zip arr).map fun p =>
        match p.2 with
        | none => p.1
        | some q => p.1 + (q - p.1) / (n' : ℚ) }

/-- The six emotion names of the slider store and the accumulator. -/
inductive Emotion
  | anxiety | sadness | joy | anger | fear | calm
deriving DecidableEq, Fintype

/-- Embeds class `SessionAverager` (sketch.js lines 162-245).  The
wall-clock fields `startTs` and `lastTs` (`performance.now()` bookkeeping
used only for the reported duration) are outside the modelled claims and
are omitted. -/
structure SessionAverager where
  active : Bool
  samples : ℕ
  structureM : OnlineMean
  balance : OnlineMean
  posture : OnlineMean
  velocity : OnlineMean
  emotions : Emotion → OnlineMean
  regionWidths : OnlineMeanArray
  segmentProfile : OnlineMeanArray

/-- The source field named `structure` is a Lean keyword; it is embedded
as `structureM` throughout.  This is the state `reset()` produces. -/
def SessionAverager.initial : SessionAverager :=
  { active := false
    samples := 0
    structureM := OnlineMean.init
    balance := OnlineMean.init
    posture := OnlineMean.init
    velocity := OnlineMean.init
    emotions := fun _ => OnlineMean.init
    regionWidths := OnlineMeanArray.init 6
    segmentProfile := OnlineMeanArray.init 3 }

/-- Embeds `SessionAverager.reset`. -/
def SessionAverager.reset (_s : SessionAverager) : SessionAverager :=
  SessionAverager.initial

/-- Embeds `SessionAverager.begin`: full reset, then activation. -/
def SessionAverager.begin (s : SessionAverager) : SessionAverager :=
  { s.reset with active := true }

/-- A sample passed to `SessionAverager.add`.  An absent field is `none`
(the source replaces it by `0` via `?? 0`); a present field may still be
the non-finite number `some none`. -/
structure Sample where
  structureM : Option JNum
  balance : Option JNum
  posture : Option JNum
  velocity : Option JNum
  emotions : Option (Emotion → Option JNum)
  regionWidths : Option (List JNum)
  segmentProfile : Option (List JNum)

/-- A sample with every field absent. -/
def emptySample : Sample := ⟨none, none, none, none, none, none, none⟩

/-- Embeds `SessionAverager.add` (sketch.js lines 196-222): a no-op when
idle; otherwise every scalar field receives `sample.field ?? 0`, the
emotion map is consumed when present with `?? 0` per key, the two vector
fields are forwarded when present, and the top-level `samples` counter
increments unconditionally at the end. -/
def SessionAverager.add (s : SessionAverager) (sample : Sample) : SessionAverager :=
  if !s.active then s
  else
    { s with
      structureM := s.structureM.add (sample.structureM.getD (some 0))
      balance := s.balance.add (sample.balance.getD (some 0))
      posture := s.posture.add (sample.posture.getD (some 0))
      velocity := s.velocity.add (sample.velocity.getD (some 0))
      emotions :=
        match sample.emotions with
        | none => s.emotions
        | some em => fun k => (s.emotions k).add ((em k).getD (some 0))
      regionWidths :=
        match sample.regionWidths with
        | none => s.regionWidths
        | some arr => s.regionWidths.add arr
      segmentProfile :=
        match sample.segmentProfile with
        | none => s.segmentProfile
        | some arr => s.segmentProfile.add arr
      samples := s.samples + 1 }

/-- The snapshot object returned by `SessionAverager.end` (durationMs,
a wall-clock quantity, omitted). -/
structure Snapshot where
  samples : ℕ
  structureM : ℚ
  balance : ℚ
  posture : ℚ
  velocity : ℚ
  emotions : Emotion → ℚ
  regionWidths : List ℚ
  segmentProfile : List ℚ

/-- Embeds `SessionAverager.end` (a Lean keyword, hence `endSession`):
snapshots all running means and deactivates. -/
def SessionAverager.endSession (s : SessionAverager) : Snapshot × SessionAverager :=
  ({ samples := s.samples
     structureM := s.structureM.mean
     balance := s.balance.mean
     posture := s.posture.mean
     velocity := s.velocity.mean
     emotions := fun k => (s.emotions k).mean
     regionWidths := s.regionWidths.means
     segmentProfile := s.segmentProfile.means },
   { s with active := false })

/-- The finite values among a list of JavaScript numbers. -/
def finiteVals (xs : List JNum) : List ℚ := xs.filterMap id

/- p5.js numeric helpers used throughout the sketch. -/

/-- p5 `lerp(start, stop, amt)`. -/
def lerp (a b t : ℚ) : ℚ := a + (b - a) * t

/-- p5 `map(value, start1, stop1, start2, stop2)` (no clamping). -/
def mapRange (v a b c d : ℚ) : ℚ := c + (d - c) * ((v - a) / (b - a))

/-- p5 `constrain(n, low, high)` = `max(min(n, high), low)`. -/
def constrain (x lo hi : ℚ) : ℚ := max (min x hi) lo

/-- Embeds `clamp01` (sketch.js lines 265-267). -/
def clamp01 (x : ℚ) : ℚ := max 0 (min 1 x)

/-- The 17 PoseNet part names. -/
inductive PartName
  | nose | leftEye | rightEye | leftEar | rightEar
  | leftShoulder | rightShoulder | leftElbow | rightElbow
  | leftWrist | rightWrist | leftHip | rightHip
  | leftKnee | rightKnee | leftAnkle | rightAnkle
deriving DecidableEq, Fintype

/-- The six region names of the slider store. -/
inductive Region
  | head | neck | armsHands | chest | abdomen | legsFeet
deriving DecidableEq, Fintype

/-- Embeds the `regionKeypoints` table (sketch.js lines 103-110). -/
def regionKeypoints : Region → List PartName
  | .head => [.nose, .leftEye, .rightEye, .leftEar, .rightEar]
  | .neck => [.leftShoulder, .rightShoulder]
  | .chest => [.leftShoulder, .rightShoulder, .leftElbow, .rightElbow, .leftWrist, .rightWrist]
  | .armsHands => [.leftWrist, .rightWrist, .leftElbow, .rightElbow]
  | .abdomen => [.leftHip, .rightHip]
  | .legsFeet => [.leftKnee, .rightKnee, .leftAnkle, .rightAnkle]

structure Point where
  x : ℚ
  y : ℚ
deriving DecidableEq

structure Keypoint where
  part : PartName
  position : Point
  score : ℚ
deriving DecidableEq

/-- A PoseNet pose result.  ml5 reports every named keypoint on the pose
object as well as in the `keypoints` list (a keypoint that is not seen
still appears, with a low score), so the named accessors the source reads
without a guard (`pose.leftShoulder.y`, line 847) are total here. -/
structure Pose where
  score : ℚ
  keypoints : List Keypoint
  leftShoulder : Point
  rightShoulder : Point
  leftWrist : Point
  rightWrist : Point
  leftHip : Point
  rightHip : Point
deriving DecidableEq

/-- The irrational numeric primitives of the source (`Math.hypot`, p5
`dist`, `Math.atan2`, the constant `Math.PI / 6`, and the layout value
`regionMaxWidths.spine`).  Each IEEE double they return is some rational;
the functions are abstract parameters constrained, in each theorem, only
by the properties the proof uses. -/
structure Prims where
  dist : ℚ → ℚ → ℚ → ℚ → ℚ
  hypot : ℚ → ℚ → ℚ
  atan2 : ℚ → ℚ → ℚ
  pi6 : ℚ
  spineMax : ℚ

/- Master tuning constants (sketch.js lines 15-66). -/
namespace TUNE

def kpMinScore : ℚ := 0.5
def vNormInMin : ℚ := 0.015
def vNormInMax : ℚ := 0.2
def vBlend : ℚ := 0.125
def fastEMA : ℚ := 0.8
def slowEMA : ℚ := 0.01
def angerBurstMin : ℚ := 0.02
def angerBurstMax : ℚ := 1
def blendPoseVsSlider : ℚ := 0.30
def anxietyInMin : ℚ := 0.3
def anxietyInMax : ℚ := 1.5
def calmInMin : ℚ := 0.2
def calmInMax : ℚ := 50
def fearInMax : ℚ := 100
def joyInMin : ℚ := 0.25
def joyInMax : ℚ := 1.0
def armsWristSpreadMin : ℚ := 2
def armsWristSpreadMax : ℚ := 5.0
def armsLerp : ℚ := 0.12
def spineSwayRange : ℚ := 1.0
def spineLerp : ℚ := 0.20
def headVelMin : ℚ := 0.035
def headVelMax : ℚ := 0.05
def headLerp : ℚ := 0.10
def neckVelMin : ℚ := 0.0005
def neckVelMax : ℚ := 0.015
def neckLerp : ℚ := 0.18
def chestVelMin : ℚ := 0.00005
def chestVelMax : ℚ := 0.010
def chestReachMin : ℚ := 0.7
def chestReachMax : ℚ := 2.0
def chestLerp : ℚ := 0.20
def abdomenVelMin : ℚ := 0.025
def abdomenVelMax : ℚ := 0.0325
def abdomenTorsoMin : ℚ := 1.20
def abdomenTorsoMax : ℚ := 1.40
def abdomenLerp : ℚ := 0.10
def legsVelMin : ℚ := 0.0001
def legsVelMax : ℚ := 0.012
def legsAnkleSpreadMin : ℚ := 0.9
def legsAnkleSpreadMax : ℚ := 3.0
def legsLerp : ℚ := 0.20

end TUNE

/-- Entry of the `__prevKeypoints` cache (part and position snapshot). -/
structure PrevKp where
  part : PartName
  position : Point
deriving DecidableEq

/-- The `__prevByPart` cache: last cached position per part name. -/
abbrev Cache := PartName → Option Point

/-- The mutable module-level pipeline state of sketch.js that the claims
concern: the slider store (`emotionSliders`, `regionSliders` including the
`spine` entry), the smoothed affect scalars, the two keypoint caches and
the reset cooldown deadline.  The follow-transform scalars (`poseTx`,
`poseTy`, `poseRot`, `poseSc`, `_poseSeenAt`), graphics objects and
emission throttles are not read by any claim and are omitted. -/
structure PipeState where
  emo : Emotion → ℚ
  reg : Region → ℚ
  spine : ℚ
  movementVelocity : ℚ
  fastVel : ℚ
  slowVel : ℚ
  smoothedStructure : ℚ
  smoothedBalance : ℚ
  smoothedPostureTilt : ℚ
  smoothedAvgY : ℚ
  prevKeypoints : Option (List PrevKp)
  prevByPart : Cache
  blockIncomingUntil : ℚ

/-- The state right after `setup()`: sliders at 0, smoothed scalars at 0,
`__prevKeypoints = null`, `__prevByPart` an empty map, no cooldown. -/
def initState : PipeState :=
  { emo := fun _ => 0
    reg := fun _ => 0
    spine := 0
    movementVelocity := 0
    fastVel := 0
    slowVel := 0
    smoothedStructure := 0
    smoothedBalance := 0
    smoothedPostureTilt := 0
    smoothedAvgY := 0
    prevKeypoints := none
    prevByPart := fun _ => none
    blockIncomingUntil := 0 }

/-- The confidence filter of `updatePoseFactors` (line 783):
`pose.keypoints.filter(k => k.score > TUNE.velocity.kpMinScore)`.
The comparison is strict. -/
def filteredKp (pose : Pose) : List Keypoint :=
  pose.keypoints.filter fun k => decide (TUNE.kpMinScore < k.score)

/-- The snapshot stored into `__prevKeypoints` (lines 801-804). -/
def snapshotKp (kp : List Keypoint) : List PrevKp :=
  kp.map fun k => ⟨k.part, k.position⟩

/-- The first keypoint of the given part passing the confidence filter:
`pose.keypoints.find(p => p.part === name && p.score > kpMinScore)`,
shared by `regionVelocity` (line 894) and the `get` helper of
`coupleRegionsToPose` (lines 914-917). -/
def confidentPos (pose : Pose) (name : PartName) : Option Point :=
  (pose.keypoints.find? fun k =>
    decide (k.part = name) && decide (TUNE.kpMinScore < k.score)).map Keypoint.position

/-- The normalization diagonal
`Math.hypot(video?.width || 640, video?.height || 480) || 1`
(lines 789 and 890); the video is 640 by 480. -/
def diagOf (P : Prims) : ℚ :=
  let d := P.hypot 640 480
  if d = 0 then 1 else d

/-- The matched-displacement mean of `updatePoseFactors` (lines 787-799):
with no previous snapshot the velocity is 0; otherwise every current
filtered keypoint that finds a same-named entry in the snapshot
contributes `hypot(dx/diag, dy/diag)`, and the mean over contributors is
returned (0 when none match). -/
def velAvgCalc (P : Prims) (kp : List Keypoint) (prev : Option (List PrevKp)) : ℚ :=
  match prev with
  | none => 0
  | some prevs =>
    let terms := kp.filterMap fun k =>
      (prevs.find? fun p => decide (p.part = k.part)).map fun p =>
        P.hypot ((k.position.x - p.position.x) / diagOf P)
          ((k.position.y - p.position.y) / diagOf P)
    if terms.length = 0 then 0 else terms.sum / (terms.length : ℚ)

/-- The loop body of `regionVelocity` (lines 893-905), threading the sum,
the match count and the per-part cache: a part with no confident keypoint
is skipped entirely; a confident part contributes a displacement term only
when previously cached, and its cache entry is then overwritten. -/
def rvGo (P : Prims) (pose : Pose) : List PartName → ℚ → ℕ → Cache → ℚ × ℕ × Cache
  | [], sum, n, c => (sum, n, c)
  | name :: rest, sum, n, c =>
    match confidentPos pose name with
    | none => rvGo P pose rest sum n c
    | some pt =>
      match c name with
      | none => rvGo P pose rest sum n (Function.update c name (some pt))
      | some prev =>
        rvGo P pose rest
          (sum + P.hypot ((pt.x - prev.x) / diagOf P) ((pt.y - prev.y) / diagOf P))
          (n + 1) (Function.update c name (some pt))

/-- Embeds `regionVelocity` (sketch.js lines 889-908), returning the value
`n > 0 ? sum / n : 0` together with the updated per-part cache. -/
def regionVelocity (P : Prims) (pose : Pose) (parts : List PartName) (c : Cache) :
    ℚ × Cache :=
  let r := rvGo P pose parts 0 0 c
  (if 0 < r.2.1 then r.1 / (r.2.1 : ℚ) else 0, r.2.2)

/-- Embeds `updatePoseFactors` (sketch.js lines 780-884).  The presence
guards on the named accessors (`if (Ls && Rs && Lw && Rw)`, lines 821 and
836) always take their true branch because ml5 supplies every named
keypoint, and are embedded as such; `E.sadnessFromAvgY.inMax`, lazily
initialized to the canvas height, is the parameter `h`.  The structure
ratios (lines 822-824) divide by the raw shoulder span with no guard: at
`span = 0` the program produces NaN or an infinity where rational
division yields 0, so this embedding matches the program only on poses
with a nonzero span (the `SpanOk` hypothesis of the range claims);
statements that never read the structure, joy, or chest values are
unaffected. -/
def updatePoseFactors (P : Prims) (h : ℚ) (pose : Pose) (st : PipeState) : PipeState :=
  let kp := filteredKp pose
  if kp.length = 0 then st
  else
    let velAvg := velAvgCalc P kp st.prevKeypoints
    let vNorm := clamp01 (mapRange velAvg TUNE.vNormInMin TUNE.vNormInMax 0 1)
    let movementVelocity := lerp st.movementVelocity vNorm TUNE.vBlend
    let fastVel := lerp st.fastVel vNorm TUNE.fastEMA
    let slowVel := lerp st.slowVel vNorm TUNE.slowEMA
    let burst := max 0 (fastVel - slowVel)
    let poseAnger := clamp01 (mapRange burst TUNE.angerBurstMin TUNE.angerBurstMax 0 1) * 5
    let Ls := pose.leftShoulder
    let Rs := pose.rightShoulder
    let Lw := pose.leftWrist
    let Rw := pose.rightWrist
    let span := P.dist Ls.x Ls.y Rs.x Rs.y
    let lwR := P.dist Ls.x Ls.y Lw.x Lw.y / span
    let rwR := P.dist Rs.x Rs.y Rw.x Rw.y / span
    let structureRaw := clamp01 (mapRange ((lwR + rwR) * 0.5) 0.7 2.0 0 1)
    let smoothedStructure := lerp st.smoothedStructure structureRaw 0.15
    let shoulderDiff := |Ls.y - Rs.y|
    let hipDiff := |pose.leftHip.y - pose.rightHip.y|
    let smoothedBalance := lerp st.smoothedBalance (shoulderDiff + hipDiff) 0.15
    let sx := (Ls.x + Rs.x) / 2
    let sy := (Ls.y + Rs.y) / 2
    let hx := (pose.leftHip.x + pose.rightHip.x) / 2
    let hy := (pose.leftHip.y + pose.rightHip.y) / 2
    let ang := P.atan2 (hy - sy) (hx - sx)
    let leanRaw := clamp01 (mapRange |ang| 0 P.pi6 0 1)
    let smoothedPostureTilt := lerp st.smoothedPostureTilt leanRaw 0.15
    let avgY := (pose.leftShoulder.y + pose.rightShoulder.y) / 2
    let smoothedAvgY := lerp st.smoothedAvgY avgY 0.1
    let poseAnxiety := constrain (mapRange movementVelocity TUNE.anxietyInMin TUNE.anxietyInMax 0 5) 0 5
    let poseCalm := constrain (mapRange smoothedBalance TUNE.calmInMin TUNE.calmInMax 5 0) 0 5
    let poseSadness := constrain (mapRange smoothedAvgY 0 h 0 5) 0 5
    let poseFear := constrain (mapRange smoothedPostureTilt 0 TUNE.fearInMax 0 5) 0 5
    let poseJoy := constrain (mapRange smoothedStructure TUNE.joyInMin TUNE.joyInMax 0 5) 0 5
    let blend := fun p s => lerp s p TUNE.blendPoseVsSlider
    { st with
      prevKeypoints := some (snapshotKp kp)
      movementVelocity := movementVelocity
      fastVel := fastVel
      slowVel := slowVel
      smoothedStructure := smoothedStructure
      smoothedBalance := smoothedBalance
      smoothedPostureTilt := smoothedPostureTilt
      smoothedAvgY := smoothedAvgY
      emo := fun e =>
        match e with
        | .anxiety => blend poseAnxiety (st.emo .anxiety)
        | .calm => blend poseCalm (st.emo .calm)
        | .sadness => blend poseSadness (st.emo .sadness)
        | .fear => blend poseFear (st.emo .fear)
        | .joy => blend poseJoy (st.emo .joy)
        | .anger => blend poseAnger (st.emo .anger) }

/-- The armsHands block of `coupleRegionsToPose` (lines 943-953), run only
when wrists and shoulders pass the confidence filter; `cur` is the stored
armsHands slider value and `c` the per-part cache at this point of the
tick.  Returns the computed region velocity (`none` when the guard
failed), the new slider value, and the cache. -/
def armsBlock (P : Prims) (pose : Pose) (cur : ℚ) (c : Cache) : Option ℚ × ℚ × Cache :=
  match confidentPos pose .leftWrist, confidentPos pose .rightWrist,
      confidentPos pose .leftShoulder, confidentPos pose .rightShoulder with
  | some lwP, some rwP, some lsP, some rsP =>
    let span := P.dist lsP.x lsP.y rsP.x rsP.y
    let wristSpread := P.dist lwP.x lwP.y rwP.x rwP.y / max span 0.000001
    let base := constrain
      (mapRange wristSpread TUNE.armsWristSpreadMin TUNE.armsWristSpreadMax 0 5) 0 5
    let pr := regionVelocity P pose (regionKeypoints .armsHands) c
    let boost := constrain (mapRange pr.1 TUNE.headVelMin TUNE.chestVelMax 0 5) 0 5 * 0.5
    let armsVal := constrain (base + boost) 0 5
    (some pr.1, lerp cur armsVal TUNE.armsLerp, pr.2)
  | _, _, _, _ => (none, cur, c)

/-- The chest block (lines 956-969), guarded by the shoulders; openness
falls back to 0 when a wrist is below confidence.  The openness ratios
(lines 960-961) divide by the raw span with no `1e-6` guard, unlike the
neighbouring blocks: at `span = 0` the program produces NaN or an
infinity where rational division yields 0, so the chest value matches
the program only on poses with a nonzero filtered shoulder span (the
`SpanOk` hypothesis of the range claims); the velocity component and
the cache are unaffected. -/
def chestBlock (P : Prims) (pose : Pose) (cur : ℚ) (c : Cache) : Option ℚ × ℚ × Cache :=
  match confidentPos pose .leftShoulder, confidentPos pose .rightShoulder with
  | some lsP, some rsP =>
    let span := P.dist lsP.x lsP.y rsP.x rsP.y
    let openness :=
      match confidentPos pose .leftWrist, confidentPos pose .rightWrist with
      | some lwP, some rwP =>
        (P.dist lsP.x lsP.y lwP.x lwP.y / span + P.dist rsP.x rsP.y rwP.x rwP.y / span) * 0.5
      | _, _ => (0 : ℚ)
    let openVal := constrain (mapRange openness TUNE.chestReachMin TUNE.chestReachMax 0 5) 0 5
    let pr := regionVelocity P pose (regionKeypoints .chest) c
    let vVal := constrain (mapRange pr.1 TUNE.chestVelMin TUNE.chestVelMax 0 5) 0 5
    let chestVal := constrain (0.6 * openVal + 0.4 * vVal) 0 5
    (some pr.1, lerp cur chestVal TUNE.chestLerp, pr.2)
  | _, _ => (none, cur, c)

/-- The abdomen block (lines 972-984), guarded by shoulders and hips. -/
def abdomenBlock (P : Prims) (pose : Pose) (cur : ℚ) (c : Cache) : Option ℚ × ℚ × Cache :=
  match confidentPos pose .leftShoulder, confidentPos pose .rightShoulder,
      confidentPos pose .leftHip, confidentPos pose .rightHip with
  | some lsP, some rsP, some lhP, some rhP =>
    let span := P.dist lsP.x lsP.y rsP.x rsP.y
    let scx := (lsP.x + rsP.x) / 2
    let scy := (lsP.y + rsP.y) / 2
    let hcx := (lhP.x + rhP.x) / 2
    let hcy := (lhP.y + rhP.y) / 2
    let torsoLen := P.dist scx scy hcx hcy / max span 0.000001
    let torsoVal := 5 - constrain (mapRange torsoLen TUNE.abdomenTorsoMin TUNE.abdomenTorsoMax 0 5) 0 5
    let pr := regionVelocity P pose (regionKeypoints .abdomen) c
    let vVal := constrain (mapRange pr.1 TUNE.abdomenVelMin TUNE.abdomenVelMax 0 5) 0 5
    let abdVal := constrain (0.6 * torsoVal + 0.4 * vVal) 0 5
    (some pr.1, lerp cur abdVal TUNE.abdomenLerp, pr.2)
  | _, _, _, _ => (none, cur, c)

/-- The legsFeet block (lines 987-997), guarded by ankles and hips. -/
def legsBlock (P : Prims) (pose : Pose) (cur : ℚ) (c : Cache) : Option ℚ × ℚ × Cache :=
  match confidentPos pose .leftAnkle, confidentPos pose .rightAnkle,
      confidentPos pose .leftHip, confidentPos pose .rightHip with
  | some laP, some raP, some lhP, some rhP =>
    let hipSpan := P.dist lhP.x lhP.y rhP.x rhP.y
    let stepW := P.dist laP.x laP.y raP.x raP.y / max hipSpan 0.000001
    let spreadVal := constrain
      (mapRange stepW TUNE.legsAnkleSpreadMin TUNE.legsAnkleSpreadMax 0 5) 0 5
    let pr := regionVelocity P pose (regionKeypoints .legsFeet) c
    let vVal := constrain (mapRange pr.1 TUNE.legsVelMin TUNE.legsVelMax 0 5) 0 5
    let legsVal := constrain (0.5 * spreadVal + 0.5 * vVal) 0 5
    (some pr.1, lerp cur legsVal TUNE.legsLerp, pr.2)
  | _, _, _, _ => (none, cur, c)

/-- The spine block (lines 1000-1011), guarded by the shoulders; it calls
no `regionVelocity` and leaves the cache alone.  The value written is the
only slider write that is not constrained to the 0..5 interval. -/
def spineBlock (P : Prims) (pose : Pose) (cur : ℚ) : ℚ :=
  match confidentPos pose .leftShoulder, confidentPos pose .rightShoulder with
  | some lsP, some rsP =>
    let span := P.dist lsP.x lsP.y rsP.x rsP.y
    let spineSway := ((lsP.x + rsP.x) * 0.5 - 640 / 2) / max span 0.000001
    lerp cur
      (mapRange spineSway (-TUNE.spineSwayRange) TUNE.spineSwayRange 0 P.spineMax)
      TUNE.spineLerp
  | _, _ => cur

/-- Embeds `coupleRegionsToPose` (sketch.js lines 910-1012), additionally
reporting, per region, the region velocity it computed this tick (`none`
when the region presence guard failed and its block did not run).  The
head and neck blocks are unguarded.  The per-part cache is threaded
through the `regionVelocity` calls in source order: head, neck,
armsHands, chest, abdomen, legsFeet; the spine block closes the tick. -/
def coupleRegionsToPoseAux (P : Prims) (pose : Pose) (st : PipeState) :
    PipeState × (Region → Option ℚ) :=
  let headPr := regionVelocity P pose (regionKeypoints .head) st.prevByPart
  let headVal := constrain (mapRange headPr.1 TUNE.headVelMin TUNE.headVelMax 0 5) 0 5
  let headNew := lerp (st.reg .head) headVal TUNE.headLerp
  let neckPr := regionVelocity P pose (regionKeypoints .neck) headPr.2
  let neckVal := constrain (mapRange neckPr.1 TUNE.neckVelMin TUNE.neckVelMax 0 5) 0 5
  let neckNew := lerp (st.reg .neck) neckVal TUNE.neckLerp
  let armsStep := armsBlock P pose (st.reg .armsHands) neckPr.2
  let chestStep := chestBlock P pose (st.reg .chest) armsStep.2.2
  let abdomenStep := abdomenBlock P pose (st.reg .abdomen) chestStep.2.2
  let legsStep := legsBlock P pose (st.reg .legsFeet) abdomenStep.2.2
  let spineNew := spineBlock P pose st.spine
  ({ st with
      reg := fun r =>
        match r with
        | .head => headNew
        | .neck => neckNew
        | .armsHands => armsStep.2.1
        | .chest => chestStep.2.1
        | .abdomen => abdomenStep.2.1
        | .legsFeet => legsStep.2.1
      spine := spineNew
      prevByPart := legsStep.2.2 },
   fun r =>
     match r with
     | .head => some headPr.1
     | .neck => some neckPr.1
     | .armsHands => armsStep.1
     | .chest => chestStep.1
     | .abdomen => abdomenStep.1
     | .legsFeet => legsStep.1)

/-- Embeds `coupleRegionsToPose`: the state part of the instrumented run. -/
def coupleRegionsToPose (P : Prims) (pose : Pose) (st : PipeState) : PipeState :=
  (coupleRegionsToPoseAux P pose st).1

/-- One detection tick as wired in the `poseNet.on` handler (lines
350-369): `updatePoseFactors` then `coupleRegionsToPose`.  The transform
and anchor updates in between touch only the follow-transform scalars,
which no claim reads. -/
def detectionTick (P : Prims) (h : ℚ) (pose : Pose) (st : PipeState) : PipeState :=
  coupleRegionsToPose P pose (updatePoseFactors P h pose st)

/-- An externally supplied slider value as seen through JavaScript
`Number(v)`: either NaN or a finite rational.  A value whose `Number`
image is positive or negative Infinity is NOT representable here: under
`|| 0` an infinity is truthy and survives, the blend in `applySliders`
then stores a non-finite number in the slider, and the modelled store
holds rationals; statements about `applySliders` in this file therefore
range over external inputs whose `Number` image is finite or NaN. -/
inductive ExtNum where
  | nanV
  | finV (q : ℚ)
deriving DecidableEq

/-- JavaScript `Number(v) || 0` on a representable external value: NaN is
falsy and becomes 0; a finite value passes through (for `v = 0` the
`|| 0` branch fires but returns the same 0). -/
def numOr0 : ExtNum → ℚ
  | .nanV => 0
  | .finV q => q

/-- Embeds `applySliders` (sketch.js lines 1531-1552).  `t` is `millis()`.
A map is a partial assignment per name; the region map of the source may
also address the `spine` slider, passed here as `sp`.  Without `force`,
the call is dropped while the cooldown deadline lies ahead. -/
def applySliders (t : ℚ) (force : Bool) (em : Emotion → Option ExtNum)
    (rm : Region → Option ExtNum) (sp : Option ExtNum) (st : PipeState) : PipeState :=
  if !force && decide (t < st.blockIncomingUntil) then st
  else
    { st with
      emo := fun e =>
        match em e with
        | some v => lerp (st.emo e) (numOr0 v) 0.35
        | none => st.emo e
      reg := fun r =>
        match rm r with
        | some v => lerp (st.reg r) (numOr0 v) 0.35
        | none => st.reg r
      spine :=
        match sp with
        | some v => lerp st.spine (numOr0 v) 0.35
        | none => st.spine }

/-- The cooldown length `RESET_INPUT_BLOCK_MS` (line 1528). -/
def RESET_BLOCK_MS : ℚ := 600

/-- Embeds `resetAll` (sketch.js lines 1554-1612) on the modelled state:
every slider and smoothed scalar is zeroed, the keypoint caches are
cleared when `resetPoseCaches` is set, and the cooldown deadline becomes
`millis() + 600`.  The tracking shutdown, follow-transform reset and
graphics clearing touch no modelled field. -/
def resetAll (t : ℚ) (resetPoseCaches : Bool) (st : PipeState) : PipeState :=
  { emo := fun _ => 0
    reg := fun _ => 0
    spine := 0
    movementVelocity := 0
    fastVel := 0
    slowVel := 0
    smoothedStructure := 0
    smoothedBalance := 0
    smoothedPostureTilt := 0
    smoothedAvgY := 0
    prevKeypoints := if resetPoseCaches then none else st.prevKeypoints
    prevByPart := if resetPoseCaches then (fun _ => none) else st.prevByPart
    blockIncomingUntil := t + RESET_BLOCK_MS }

/-- The operations that write the slider state store: a detection tick, an
external `applySliders` call, a `resetAll` call. -/
inductive Step where
  | tick (pose : Pose)
  | applyStep (t : ℚ) (force : Bool) (em : Emotion → Option ExtNum)
      (rm : Region → Option ExtNum) (sp : Option ExtNum)
  | resetStep (t : ℚ) (resetPoseCaches : Bool)

/-- Runs one step. -/
def execStep (P : Prims) (h : ℚ) : Step → PipeState → PipeState
  | .tick pose, st => detectionTick P h pose st
  | .applyStep t f em rm sp, st => applySliders t f em rm sp st
  | .resetStep t rc, st => resetAll t rc st

/-- Runs a finite sequence of steps. -/
def execSteps (P : Prims) (h : ℚ) (steps : List Step) (st : PipeState) : PipeState :=
  steps.foldl (fun s stp => execStep P h stp s) st

def c5sample1 : Sample :=
  { emptySample with regionWidths := some [some 1, some 2, some 3, some 4, some 5, some 6] }

def c5sample2 : Sample :=
  { emptySample with regionWidths := some [some 3, some 2, some 1, some 0, some 1, some 2] }

def c5sample3 : Sample :=
  { emptySample with regionWidths := some [some 2, some 2, some 2, some 2, some 2, some 2] }

def c1sampleNaN : Sample :=
  { emptySample with segmentProfile := some [none, some 0, some 0] }

def c1sampleSix : Sample :=
  { emptySample with segmentProfile := some [some 6, some 0, some 0] }

def c2sampleA : Sample :=
  { emptySample with regionWidths := some [some 1, some 1, some 1, some 1, some 1, some 1] }

def c2sampleB : Sample :=
  { emptySample with regionWidths := some [some 10] }

def c10sample : Sample := { emptySample with structureM := some none }

def fieldCountersLe (s : SessionAverager) : Prop :=
  s.structureM.n ≤ s.samples ∧ s.balance.n ≤ s.samples ∧ s.posture.n ≤ s.samples ∧
  s.velocity.n ≤ s.samples ∧ (∀ e, (s.emotions e).n ≤ s.samples) ∧
  s.regionWidths.n ≤ s.samples ∧ s.segmentProfile.n ≤ s.samples

def taxi : Prims :=
  { dist := fun x1 y1 x2 y2 => |x2 - x1| + |y2 - y1|
    hypot := fun x y => |x| + |y|
    atan2 := fun _ _ => 0
    pi6 := 1 / 2
    spineMax := 100 }

def zeroPt : Point := ⟨0, 0⟩

def c4pose1 : Pose :=
  { score := 1, keypoints := [⟨.nose, ⟨0, 0⟩, 1⟩]
    leftShoulder := zeroPt, rightShoulder := zeroPt, leftWrist := zeroPt, rightWrist := zeroPt
    leftHip := zeroPt, rightHip := zeroPt }

def c4pose2 : Pose :=
  { score := 1, keypoints := [⟨.nose, ⟨56, 0⟩, 1⟩]
    leftShoulder := zeroPt, rightShoulder := zeroPt, leftWrist := zeroPt, rightWrist := zeroPt
    leftHip := zeroPt, rightHip := zeroPt }

def c4pose3 : Pose :=
  { score := 1, keypoints := []
    leftShoulder := zeroPt, rightShoulder := zeroPt, leftWrist := zeroPt, rightWrist := zeroPt
    leftHip := zeroPt, rightHip := zeroPt }

def c4st1 : PipeState := detectionTick taxi 480 c4pose1 initState
def c4st2 : PipeState := detectionTick taxi 480 c4pose2 c4st1
def c4st3 : PipeState := detectionTick taxi 480 c4pose3 c4st2

def c8kp : Keypoint := ⟨.nose, ⟨0, 0⟩, 0.5⟩

def c8pose : Pose :=
  { score := 1, keypoints := [c8kp]
    leftShoulder := zeroPt, rightShoulder := zeroPt, leftWrist := zeroPt, rightWrist := zeroPt
    leftHip := zeroPt, rightHip := zeroPt }

def c3pose : Pose :=
  { score := 1, keypoints := []
    leftShoulder := zeroPt, rightShoulder := ⟨220, 0⟩, leftWrist := zeroPt, rightWrist := zeroPt
    leftHip := zeroPt, rightHip := zeroPt }

/-- The slider-store invariant claimed by the spec: every emotion and
every region width lies in the interval 0 to 5 (the spine scalar is in
pixel units and is not part of the claim). -/
def InRange (st : PipeState) : Prop :=
  (∀ e, 0 ≤ st.emo e ∧ st.emo e ≤ 5) ∧ (∀ r, 0 ≤ st.reg r ∧ st.reg r ≤ 5)

/-- A supplied external value is in range: a finite value lies in 0..5;
a NaN is allowed, since `Number(v) || 0` turns it into 0; an absent entry
is allowed. -/
def okVal : Option ExtNum → Prop
  | some (.finV q) => 0 ≤ q ∧ q ≤ 5
  | _ => True

/-- The pose avoids the unguarded shoulder-span divisions of
`updatePoseFactors` (lines 822-824) and of the chest block (lines
960-961): the named shoulder points are at nonzero distance, and so are
the filtered shoulder keypoints whenever both pass the confidence
filter.  With a zero span the program divides by zero — producing NaN
when the numerator is also zero, else an infinity — and a NaN reaches
the joy or chest store through `constrain` and `lerp`; neither value is
representable in the rational store, where division by zero yields 0
instead, so statements about the stores on ticks are restricted to such
poses. -/
def SpanOk (P : Prims) (pose : Pose) : Prop :=
  P.dist pose.leftShoulder.x pose.leftShoulder.y
      pose.rightShoulder.x pose.rightShoulder.y ≠ 0 ∧
  ∀ lsP rsP, confidentPos pose PartName.leftShoulder = some lsP →
    confidentPos pose PartName.rightShoulder = some rsP →
    P.dist lsP.x lsP.y rsP.x rsP.y ≠ 0

/-- Well-formed steps for the amended invariant: external applies carry
only in-range finite (or NaN) values, and ticks carry poses with a
nonzero shoulder span, on which the rational division of the embedding
agrees with the program. -/
def OkStep (P : Prims) : Step → Prop
  | .tick pose => SpanOk P pose
  | .applyStep _ _ em rm _ => (∀ e, okVal (em e)) ∧ (∀ r, okVal (rm r))
  | .resetStep _ _ => True

/-- The per-part cache agrees with the pose at part `m`: whenever `m` has
a confident keypoint, the cache holds exactly its current position. -/
def syncAt (pose : Pose) (c : Cache) (m : PartName) : Prop :=
  ∀ pt, confidentPos pose m = some pt → c m = some pt

/-- The presence condition of the armsHands block. -/
def armsGuardP (pose : Pose) : Prop :=
  (confidentPos pose .leftWrist).isSome ∧ (confidentPos pose .rightWrist).isSome ∧
  (confidentPos pose .leftShoulder).isSome ∧ (confidentPos pose .rightShoulder).isSome

/-- The presence condition of the chest and spine blocks. -/
def chestGuardP (pose : Pose) : Prop :=
  (confidentPos pose .leftShoulder).isSome ∧ (confidentPos pose .rightShoulder).isSome

/-- The presence condition of the abdomen block. -/
def abdomenGuardP (pose : Pose) : Prop :=
  (confidentPos pose .leftShoulder).isSome ∧ (confidentPos pose .rightShoulder).isSome ∧
  (confidentPos pose .leftHip).isSome ∧ (confidentPos pose .rightHip).isSome

/-- The presence condition of the legsFeet block. -/
def legsGuardP (pose : Pose) : Prop :=
  (confidentPos pose .leftAnkle).isSome ∧ (confidentPos pose .rightAnkle).isSome ∧
  (confidentPos pose .leftHip).isSome ∧ (confidentPos pose .rightHip).isSome

/-- A part name that some `regionVelocity` call of the tick reads: head
and neck parts always, the parts of a guarded region when its guard
holds. -/
def tickReadable (pose : Pose) (m : PartName) : Prop :=
  m ∈ regionKeypoints .head ∨ m ∈ regionKeypoints .neck ∨
  (armsGuardP pose ∧ m ∈ regionKeypoints .armsHands) ∨
  (chestGuardP pose ∧ m ∈ regionKeypoints .chest) ∨
  (abdomenGuardP pose ∧ m ∈ regionKeypoints .abdomen) ∨
  (legsGuardP pose ∧ m ∈ regionKeypoints .legsFeet)

def c9cache : Cache
  | .leftShoulder => some ⟨1120, 0⟩
  | .rightShoulder => some ⟨0, 0⟩
  | .leftElbow => some ⟨0, 0⟩
  | .rightElbow => some ⟨0, 0⟩
  | .leftWrist => some ⟨0, 0⟩
  | .rightWrist => some ⟨0, 0⟩
  | _ => none

def c9st : PipeState := { initState with prevByPart := c9cache }

def c9pose : Pose :=
  { score := 1
    keypoints := [⟨.leftShoulder, ⟨0, 0⟩, 1⟩, ⟨.rightShoulder, ⟨0, 0⟩, 1⟩,
      ⟨.leftElbow, ⟨0, 0⟩, 1⟩, ⟨.rightElbow, ⟨0, 0⟩, 1⟩,
      ⟨.leftWrist, ⟨0, 0⟩, 1⟩, ⟨.rightWrist, ⟨0, 0⟩, 1⟩]
    leftShoulder := zeroPt, rightShoulder := zeroPt, leftWrist := zeroPt, rightWrist := zeroPt
    leftHip := zeroPt, rightHip := zeroPt }

/-
  Lemmas and theorems.  Supporting lemmas come first inside each claim
  group; the theorem, counterexample and witness of claim Cn carry the
  claim id in their names.
-/

/-
  Theorems.  Claim theorems are named by claim id; supporting lemmas come
  first.
-/

lemma OnlineMean.add_none (s : OnlineMean) : s.add none = s := rfl

lemma OnlineMean.add_some (s : OnlineMean) (q : ℚ) :
    (s.add (some q)).n = s.n + 1 ∧
    (s.add (some q)).mean * ((s.n : ℚ) + 1) = s.mean * s.n + q := by
  refine ⟨rfl, ?_⟩
  have h : ((s.n : ℚ) + 1) ≠ 0 := by positivity
  show (s.mean + (q - s.mean) / ((s.n : ℚ) + 1)) * ((s.n : ℚ) + 1) = s.mean * s.n + q
  field_simp
  ring

lemma OnlineMean.foldl_inv (xs : List JNum) : ∀ s : OnlineMean,
    (xs.foldl OnlineMean.add s).n = s.n + (finiteVals xs).length ∧
    ((xs.foldl OnlineMean.add s).mean) * (((xs.foldl OnlineMean.add s).n : ℕ) : ℚ)
      = s.mean * s.n + (finiteVals xs).sum ∧
    (finiteVals xs = [] → (xs.foldl OnlineMean.add s).mean = s.mean) := by
  induction xs with
  | nil => intro s; simp [finiteVals]
  | cons x xs ih =>
    intro s
    cases x with
    | none =>
      simpa [finiteVals, OnlineMean.add_none] using ih s
    | some q =>
      obtain ⟨hn, hm, _⟩ := ih (s.add (some q))
      obtain ⟨hn1, hm1⟩ := OnlineMean.add_some s q
      have hcnt : (finiteVals (some q :: xs)).length = (finiteVals xs).length + 1 := by
        simp [finiteVals]
      have hsum : (finiteVals (some q :: xs)).sum = q + (finiteVals xs).sum := by
        simp [finiteVals]
      refine ⟨?_, ?_, ?_⟩
      · simp only [List.foldl_cons, hn, hn1, hcnt]; omega
      · simp only [List.foldl_cons, hsum]
        rw [hm, hn1]
        push_cast
        rw [hm1]
        ring
      · intro hemp
        have hlen := congrArg List.length hemp
        rw [hcnt] at hlen
        simp at hlen

/-- Helper: mean equals sum over count, with the empty case giving 0 via
the `x / 0 = 0` convention. -/
lemma OnlineMean.foldl_init (xs : List JNum) :
    (xs.foldl OnlineMean.add OnlineMean.init).n = (finiteVals xs).length ∧
    (xs.foldl OnlineMean.add OnlineMean.init).mean
      = (finiteVals xs).sum / ((finiteVals xs).length : ℚ) := by
  obtain ⟨hn, hm, hz⟩ := OnlineMean.foldl_inv xs OnlineMean.init
  simp only [OnlineMean.init] at hn hm
  refine ⟨by simpa using hn, ?_⟩
  rcases Nat.eq_zero_or_pos (finiteVals xs).length with h0 | hpos
  · rw [List.length_eq_zero] at h0
    rw [hz h0, h0]
    simp [OnlineMean.init]
  · have hne : (((finiteVals xs).length : ℕ) : ℚ) ≠ 0 := by positivity
    rw [eq_div_iff hne]
    simpa [hn] using hm

lemma getD_zipmap (f : ℚ → JNum → ℚ) : ∀ (ms : List ℚ) (vs : List JNum) (i : ℕ),
    i < ms.length → ms.length = vs.length →
    (((ms.zip vs).map fun p => f p.1 p.2).getD i 0) = f (ms.getD i 0) (vs.getD i none) := by
  intro ms
  induction ms with
  | nil => intro vs i h _; simp at h
  | cons m ms ih =>
    intro vs i h hlen
    cases vs with
    | nil => simp at hlen
    | cons v vs =>
      cases i with
      | zero => simp
      | succ j =>
        simp only [List.zip_cons_cons, List.map_cons, List.getD_cons_succ]
        exact ih vs j (by simpa using h) (by simpa using hlen)

lemma OnlineMeanArray.add_matched (s : OnlineMeanArray) (arr : List JNum)
    (hne : arr.length ≠ 0) (hlen : s.means.length = arr.length) :
    (s.add arr).n = s.n + 1 ∧
    (s.add arr).means.length = s.means.length ∧
    ∀ i, i < s.means.length →
      (s.add arr).means.getD i 0 =
        match arr.getD i none with
        | none => s.means.getD i 0
        | some q => s.means.getD i 0 + (q - s.means.getD i 0) / (((s.n + 1 : ℕ)) : ℚ) := by
  have hadd : s.add arr =
      { n := s.n + 1
        means := (s.means.zip arr).map fun p =>
          match p.2 with
          | none => p.1
          | some q => p.1 + (q - p.1) / (((s.n + 1 : ℕ)) : ℚ) } := by
    unfold EnergyBodies.OnlineMeanArray.add
    rw [if_neg hne]
    simp only [not_ne_iff.mpr hlen, if_neg, ite_false]
  rw [hadd]
  refine ⟨rfl, ?_, ?_⟩
  · simp [List.length_zip, hlen]
  · intro i hi
    exact getD_zipmap
      (fun a b => match b with
        | none => a
        | some q => a + (q - a) / (((s.n + 1 : ℕ)) : ℚ)) s.means arr i hi hlen

lemma getD_map_some (v : List ℚ) (i : ℕ) (hi : i < v.length) :
    (v.map some).getD i none = some (v.getD i 0) := by
  simp [List.getD_eq_getElem?_getD, List.getElem?_eq_getElem, hi]

lemma OnlineMeanArray.foldl_allFinite (vss : List (List ℚ)) : ∀ s : OnlineMeanArray,
    (∀ v ∈ vss, v.length = 6) → s.means.length = 6 →
    ((vss.map (fun v => v.map some)).foldl OnlineMeanArray.add s).means.length = 6 ∧
    ((vss.map (fun v => v.map some)).foldl OnlineMeanArray.add s).n = s.n + vss.length ∧
    ∀ i, i < 6 →
      ((vss.map (fun v => v.map some)).foldl OnlineMeanArray.add s).means.getD i 0
          * ((((vss.map (fun v => v.map some)).foldl OnlineMeanArray.add s).n : ℕ) : ℚ)
        = s.means.getD i 0 * s.n + (vss.map (fun v => v.getD i 0)).sum := by
  induction vss with
  | nil =>
    intro s _ hlen
    refine ⟨hlen, rfl, fun i _ => by simp⟩
  | cons v vss ih =>
    intro s hv hlen
    have hv6 : v.length = 6 := hv v (by simp)
    have harrlen : (v.map some).length ≠ 0 := by simp [hv6]
    have hml : s.means.length = (v.map some).length := by simp [hlen, hv6]
    obtain ⟨ha_n, ha_len, ha_i⟩ := OnlineMeanArray.add_matched s (v.map some) harrlen hml
    have hlen1 : (s.add (v.map some)).means.length = 6 := by rw [ha_len, hlen]
    obtain ⟨ih_len, ih_n, ih_i⟩ := ih (s.add (v.map some)) (fun w hw => hv w (by simp [hw])) hlen1
    simp only [List.map_cons, List.foldl_cons]
    refine ⟨ih_len, by rw [ih_n, ha_n]; simp only [List.length_cons]; omega, ?_⟩
    intro i hi
    have hstep : (s.add (v.map some)).means.getD i 0
        = s.means.getD i 0 + (v.getD i 0 - s.means.getD i 0) / (((s.n + 1 : ℕ)) : ℚ) := by
      have := ha_i i (by omega : i < s.means.length)
      rw [getD_map_some v i (by omega)] at this
      simpa using this
    have hne : (((s.n + 1 : ℕ)) : ℚ) ≠ 0 := by positivity
    have hstepmul : (s.add (v.map some)).means.getD i 0 * (((s.n + 1 : ℕ)) : ℚ)
        = s.means.getD i 0 * s.n + v.getD i 0 := by
      rw [hstep]
      field_simp
      ring
    have := ih_i i hi
    rw [ha_n] at this
    rw [this, hstepmul]
    simp only [List.map_cons, List.sum_cons]
    ring

lemma zip_replicate_step (n' : ℚ) : ∀ arr : List JNum,
    ((List.replicate arr.length (0 : ℚ)).zip arr).map (fun p =>
        match p.2 with
        | none => p.1
        | some q => p.1 + (q - p.1) / n')
      = arr.map (fun x =>
          match x with
          | none => (0 : ℚ)
          | some q => q / n') := by
  intro arr
  induction arr with
  | nil => rfl
  | cons x arr ih =>
    simp only [List.length_cons, List.replicate_succ, List.zip_cons_cons, List.map_cons, ih]
    cases x <;> simp

lemma OnlineMeanArray.add_mismatch (s : OnlineMeanArray) (arr : List JNum)
    (hne : arr.length ≠ 0) (hmis : s.means.length ≠ arr.length) :
    (s.add arr).n = s.n + 1 ∧
    (s.add arr).means = arr.map (fun x =>
      match x with
      | none => (0 : ℚ)
      | some q => q / (((s.n + 1 : ℕ)) : ℚ)) := by
  unfold EnergyBodies.OnlineMeanArray.add
  rw [if_neg hne, if_pos hmis]
  exact ⟨rfl, zip_replicate_step _ arr⟩

lemma SessionAverager.add_active (s : SessionAverager) (sm : Sample)
    (hact : s.active = true) :
    s.add sm = { s with
      structureM := s.structureM.add (sm.structureM.getD (some 0))
      balance := s.balance.add (sm.balance.getD (some 0))
      posture := s.posture.add (sm.posture.getD (some 0))
      velocity := s.velocity.add (sm.velocity.getD (some 0))
      emotions :=
        match sm.emotions with
        | none => s.emotions
        | some em => fun k => (s.emotions k).add ((em k).getD (some 0))
      regionWidths :=
        match sm.regionWidths with
        | none => s.regionWidths
        | some arr => s.regionWidths.add arr
      segmentProfile :=
        match sm.segmentProfile with
        | none => s.segmentProfile
        | some arr => s.segmentProfile.add arr
      samples := s.samples + 1 } := by
  unfold EnergyBodies.SessionAverager.add
  rw [hact]
  simp

lemma sessionFold_structure (l : List Sample) : ∀ s : SessionAverager, s.active = true →
    (l.foldl SessionAverager.add s).structureM
      = (l.map (fun sm => sm.structureM.getD (some 0))).foldl OnlineMean.add s.structureM := by
  induction l with
  | nil => intro s _; rfl
  | cons sm l ih =>
    intro s hact
    simp only [List.foldl_cons, List.map_cons]
    rw [SessionAverager.add_active s sm hact]
    exact ih _ hact

/-- Claim C1 (amended).  For every sequence of values fed to an
`OnlineMean`, the running mean equals the arithmetic mean of the finite
values seen, non-finite values being skipped without counting; the same
holds per element for an `OnlineMeanArray` PROVIDED every supplied
element is finite, in which case the single shared counter equals the
number of adds; and through `SessionAverager.add` the structure field
realises the scalar law for any sample sequence after `begin`.  The
original claim is false for vector fields containing non-finite
elements: the vector accumulator has one shared counter that advances
even when an element is skipped (see `c1_running_mean_cex`). -/
theorem c1_running_mean_amended :
    (∀ xs : List JNum,
        (xs.foldl OnlineMean.add OnlineMean.init).n = (finiteVals xs).length ∧
        (xs.foldl OnlineMean.add OnlineMean.init).mean
          = (finiteVals xs).sum / ((finiteVals xs).length : ℚ))
    ∧ (∀ vss : List (List ℚ), (∀ v ∈ vss, v.length = 6) → ∀ i, i < 6 →
        ((vss.map (fun v => v.map some)).foldl OnlineMeanArray.add
            (OnlineMeanArray.init 6)).means.getD i 0
          = (vss.map (fun v => v.getD i 0)).sum / (vss.length : ℚ))
    ∧ (∀ l : List Sample,
        (l.foldl SessionAverager.add SessionAverager.initial.begin).structureM.mean
          = (finiteVals (l.map (fun sm => sm.structureM.getD (some 0)))).sum
              / ((finiteVals (l.map (fun sm => sm.structureM.getD (some 0)))).length : ℚ)) := by
  refine ⟨OnlineMean.foldl_init, ?_, ?_⟩
  · intro vss hv i hi
    obtain ⟨hlen, hn, hp⟩ := OnlineMeanArray.foldl_allFinite vss (OnlineMeanArray.init 6) hv
      (by simp [OnlineMeanArray.init])
    simp only [OnlineMeanArray.init] at hlen hn hp
    rcases Nat.eq_zero_or_pos vss.length with h0 | hpos
    · rw [List.length_eq_zero] at h0
      subst h0
      simp only [List.map_nil, List.foldl_nil, OnlineMeanArray.init, List.length_nil,
        Nat.cast_zero, div_zero]
      interval_cases i <;> rfl
    · have hne : ((vss.length : ℕ) : ℚ) ≠ 0 := by positivity
      have hthis := hp i hi
      rw [hn] at hthis
      simp only [Nat.cast_zero, mul_zero, zero_add, zero_mul, Nat.zero_add] at hthis
      rw [eq_div_iff hne]
      simp only [OnlineMeanArray.init]
      simpa using hthis
  · intro l
    rw [sessionFold_structure l SessionAverager.initial.begin rfl]
    exact (OnlineMean.foldl_init _).2

/-- Claim C1 counterexample.  Feeding the segment-profile vectors
`[NaN, 0, 0]` then `[6, 0, 0]` to an accumulator made active by `begin`
leaves element 0 at mean 3, not the arithmetic mean 6 of its single
finite value: the shared counter advanced on the NaN add. -/
theorem c1_running_mean_cex :
    ((SessionAverager.initial.begin.add c1sampleNaN).add c1sampleSix).segmentProfile.means
      = [3, 0, 0] ∧ (3 : ℚ) ≠ 6 := by
  constructor
  · norm_num [SessionAverager.add, SessionAverager.begin, SessionAverager.reset,
      SessionAverager.initial, OnlineMeanArray.add, OnlineMeanArray.init, OnlineMean.add,
      OnlineMean.init, c1sampleNaN, c1sampleSix, emptySample, List.replicate]
  · norm_num

/-- Claim C1 witness: the amended vector law evaluated on the single
length-6 vector `[1, 2, 3, 4, 5, 6]` at element 0. -/
theorem c1_running_mean_witness :
    (∀ v ∈ [[(1 : ℚ), 2, 3, 4, 5, 6]], v.length = 6) ∧ (0 : ℕ) < 6 ∧
    (([[(1 : ℚ), 2, 3, 4, 5, 6]].map (fun v => v.map some)).foldl OnlineMeanArray.add
        (OnlineMeanArray.init 6)).means.getD 0 0
      = ([[(1 : ℚ), 2, 3, 4, 5, 6]].map (fun v => v.getD 0 0)).sum
          / (([[(1 : ℚ), 2, 3, 4, 5, 6]].length : ℕ) : ℚ) :=
  ⟨by decide, by decide,
    c1_running_mean_amended.2.1 [[1, 2, 3, 4, 5, 6]] (by decide) 0 (by decide)⟩

/-- Claim C2 (amended).  A vector accumulator receiving an array whose
length differs from the established length discards its means and
replaces them with a zero vector of the new length, and every other
field of a `SessionAverager` is unaffected by the regionWidths input;
but the vector counter `n` is NOT reset: it is retained and incremented,
so the first post-mismatch means are `x / (n + 1)`, not `x`.  The
original claim, that accumulation restarts as if no prior samples had
been seen, is false (see `c2_mismatch_cex`). -/
theorem c2_mismatch_amended :
    (∀ (s : OnlineMeanArray) (arr : List JNum),
        arr.length ≠ 0 → s.means.length ≠ arr.length →
        (s.add arr).n = s.n + 1 ∧
        (s.add arr).means = arr.map (fun x =>
          match x with
          | none => (0 : ℚ)
          | some q => q / (((s.n + 1 : ℕ)) : ℚ)))
    ∧ (∀ (s : SessionAverager) (sm : Sample) (rw1 rw2 : Option (List JNum)),
        (s.add { sm with regionWidths := rw1 }).structureM
            = (s.add { sm with regionWidths := rw2 }).structureM ∧
        (s.add { sm with regionWidths := rw1 }).balance
            = (s.add { sm with regionWidths := rw2 }).balance ∧
        (s.add { sm with regionWidths := rw1 }).posture
            = (s.add { sm with regionWidths := rw2 }).posture ∧
        (s.add { sm with regionWidths := rw1 }).velocity
            = (s.add { sm with regionWidths := rw2 }).velocity ∧
        (s.add { sm with regionWidths := rw1 }).emotions
            = (s.add { sm with regionWidths := rw2 }).emotions ∧
        (s.add { sm with regionWidths := rw1 }).segmentProfile
            = (s.add { sm with regionWidths := rw2 }).segmentProfile ∧
        (s.add { sm with regionWidths := rw1 }).samples
            = (s.add { sm with regionWidths := rw2 }).samples ∧
        (s.add { sm with regionWidths := rw1 }).active
            = (s.add { sm with regionWidths := rw2 }).active) := by
  constructor
  · intro s arr h1 h2
    exact OnlineMeanArray.add_mismatch s arr h1 h2
  · intro s sm rw1 rw2
    by_cases hact : s.active
    · rw [SessionAverager.add_active _ _ hact, SessionAverager.add_active _ _ hact]
      exact ⟨rfl, rfl, rfl, rfl, rfl, rfl, rfl, rfl⟩
    · simp only [Bool.not_eq_true] at hact
      simp [SessionAverager.add, hact]

/-- Claim C2 counterexample.  After `begin`, adding region-width vector
`[1, 1, 1, 1, 1, 1]` and then the mismatched `[10]` yields mean vector
`[5]` with counter 2; fresh accumulation would have produced `[10]`. -/
theorem c2_mismatch_cex :
    ((SessionAverager.initial.begin.add c2sampleA).add c2sampleB).regionWidths.means = [5] ∧
    ((SessionAverager.initial.begin.add c2sampleA).add c2sampleB).regionWidths.n = 2 ∧
    (5 : ℚ) ≠ 10 := by
  refine ⟨?_, ?_, by norm_num⟩
  · norm_num [SessionAverager.add, SessionAverager.begin, SessionAverager.reset,
      SessionAverager.initial, OnlineMeanArray.add, OnlineMeanArray.init, OnlineMean.add,
      OnlineMean.init, c2sampleA, c2sampleB, emptySample, List.replicate]
  · norm_num [SessionAverager.add, SessionAverager.begin, SessionAverager.reset,
      SessionAverager.initial, OnlineMeanArray.add, OnlineMeanArray.init, OnlineMean.add,
      OnlineMean.init, c2sampleA, c2sampleB, emptySample, List.replicate]

/-- Claim C2 witness: the amended mismatch law applied to a length-6
accumulator with counter 5 receiving the singleton array `[12]`. -/
theorem c2_mismatch_witness :
    (([some (12 : ℚ)] : List JNum).length ≠ 0) ∧
    ((⟨List.replicate 6 0, 5⟩ : OnlineMeanArray).means.length ≠ ([some (12 : ℚ)] : List JNum).length) ∧
    (((⟨List.replicate 6 0, 5⟩ : OnlineMeanArray).add [some (12 : ℚ)]).n
        = (⟨List.replicate 6 0, 5⟩ : OnlineMeanArray).n + 1 ∧
     ((⟨List.replicate 6 0, 5⟩ : OnlineMeanArray).add [some (12 : ℚ)]).means
        = ([some (12 : ℚ)] : List JNum).map (fun x =>
            match x with
            | none => (0 : ℚ)
            | some q => q / ((((⟨List.replicate 6 0, 5⟩ : OnlineMeanArray).n + 1 : ℕ)) : ℚ))) :=
  ⟨by decide, by decide, c2_mismatch_amended.1 _ _ (by decide) (by decide)⟩

/-- Claim C5 counterexample.  The accumulator receiving the three
region-width vectors of the example does NOT end at
`[2, 2, 2, 2, 3, 10/3]`: element 4 is `(5 + 1 + 2) / 3 = 8/3`, not 3. -/
theorem c5_example_cex :
    ¬ ((((SessionAverager.initial.begin.add c5sample1).add c5sample2).add
        c5sample3).regionWidths.means = [2, 2, 2, 2, 3, 10 / 3]) := by
  norm_num [SessionAverager.add, SessionAverager.begin, SessionAverager.reset,
    SessionAverager.initial, OnlineMeanArray.add, OnlineMeanArray.init, OnlineMean.add,
    OnlineMean.init, c5sample1, c5sample2, c5sample3, emptySample, List.replicate]

/-- Claim C5 (amended).  From a fresh `begin`, adding the region-width
vectors `[1,2,3,4,5,6]`, `[3,2,1,0,1,2]`, `[2,2,2,2,2,2]` yields the
mean vector `[2, 2, 2, 2, 8/3, 10/3]` (the spec example wrote 3 for the
fifth element where the arithmetic mean is 8/3). -/
theorem c5_example_amended :
    (((SessionAverager.initial.begin.add c5sample1).add c5sample2).add
        c5sample3).regionWidths.means = [2, 2, 2, 2, 8 / 3, 10 / 3] := by
  norm_num [SessionAverager.add, SessionAverager.begin, SessionAverager.reset,
    SessionAverager.initial, OnlineMeanArray.add, OnlineMeanArray.init, OnlineMean.add,
    OnlineMean.init, c5sample1, c5sample2, c5sample3, emptySample, List.replicate]

lemma OnlineMean.add_n_le (s : OnlineMean) (x : JNum) : (s.add x).n ≤ s.n + 1 := by
  cases x <;> simp [OnlineMean.add]

lemma OnlineMeanArray.addArr_n_le (s : OnlineMeanArray) (arr : List JNum) :
    (s.add arr).n ≤ s.n + 1 := by
  unfold EnergyBodies.OnlineMeanArray.add
  split <;> simp

lemma SessionAverager.add_inv (s : SessionAverager) (sm : Sample)
    (hact : s.active = true) (h : fieldCountersLe s) :
    (s.add sm).active = true ∧ (s.add sm).samples = s.samples + 1 ∧
    fieldCountersLe (s.add sm) := by
  obtain ⟨h1, h2, h3, h4, h5, h6, h7⟩ := h
  rw [SessionAverager.add_active s sm hact]
  refine ⟨hact, rfl, ?_, ?_, ?_, ?_, ?_, ?_, ?_⟩ <;> dsimp only
  · exact le_trans (OnlineMean.add_n_le _ _) (by omega)
  · exact le_trans (OnlineMean.add_n_le _ _) (by omega)
  · exact le_trans (OnlineMean.add_n_le _ _) (by omega)
  · exact le_trans (OnlineMean.add_n_le _ _) (by omega)
  · intro e
    cases hm : sm.emotions with
    | none => simp only [hm]; exact le_trans (h5 e) (by omega)

    | some em =>
      simp only [hm]
      exact le_trans (OnlineMean.add_n_le _ _) (by have := h5 e; omega)
  · cases hm : sm.regionWidths with
    | none => simp only [hm]; omega
    | some arr => simp only [hm]; exact le_trans (OnlineMeanArray.addArr_n_le _ _) (by omega)
  · cases hm : sm.segmentProfile with
    | none => simp only [hm]; omega
    | some arr => simp only [hm]; exact le_trans (OnlineMeanArray.addArr_n_le _ _) (by omega)

lemma SessionAverager.sessFoldl_inv (l : List Sample) : ∀ s : SessionAverager,
    s.active = true → fieldCountersLe s →
    (l.foldl SessionAverager.add s).active = true ∧
    (l.foldl SessionAverager.add s).samples = s.samples + l.length ∧
    fieldCountersLe (l.foldl SessionAverager.add s) := by
  induction l with
  | nil => intro s ha hc; exact ⟨ha, by simp, hc⟩
  | cons sm l ih =>
    intro s ha hc
    obtain ⟨a1, a2, a3⟩ := SessionAverager.add_inv s sm ha hc
    obtain ⟨b1, b2, b3⟩ := ih (s.add sm) a1 a3
    refine ⟨b1, ?_, b3⟩
    simp only [List.foldl_cons, List.length_cons] at b2 ⊢
    omega

/-- Claim C10 (confirmed).  From `begin`, the top-level samples counter
equals the number of `add` calls whatever the samples carry, every
field-level counter is bounded by it, and the two can differ: one add
carrying a non-finite structure value leaves the structure counter at 0
while samples is 1. -/
theorem c10_top_counter :
    (∀ l : List Sample,
        (l.foldl SessionAverager.add SessionAverager.initial.begin).samples = l.length ∧
        fieldCountersLe (l.foldl SessionAverager.add SessionAverager.initial.begin))
    ∧ ((SessionAverager.initial.begin.add c10sample).structureM.n = 0 ∧
       (SessionAverager.initial.begin.add c10sample).samples = 1) := by
  constructor
  · intro l
    obtain ⟨_, h2, h3⟩ := SessionAverager.sessFoldl_inv l SessionAverager.initial.begin
      (by rfl)
      (by
        unfold fieldCountersLe
        refine ⟨?_, ?_, ?_, ?_, fun e => ?_, ?_, ?_⟩ <;>
          simp [SessionAverager.begin, SessionAverager.reset, SessionAverager.initial,
            OnlineMean.init, OnlineMeanArray.init])
    refine ⟨?_, h3⟩
    rw [h2]
    simp [SessionAverager.begin, SessionAverager.reset, SessionAverager.initial]
  · exact ⟨rfl, rfl⟩

lemma rvGo_noconf (P : Prims) (pose : Pose) : ∀ (parts : List PartName) (sum : ℚ) (n : ℕ) (c : Cache),
    (∀ name ∈ parts, confidentPos pose name = none) →
    rvGo P pose parts sum n c = (sum, n, c) := by
  intro parts
  induction parts with
  | nil => intro sum n c _; rfl
  | cons name rest ih =>
    intro sum n c h
    have hname := h name (by simp)
    simp only [rvGo, hname]
    exact ih sum n c (fun m hm => h m (by simp [hm]))

lemma regionVelocity_noconf (P : Prims) (pose : Pose) (parts : List PartName) (c : Cache)
    (h : ∀ name ∈ parts, confidentPos pose name = none) :
    regionVelocity P pose parts c = (0, c) := by
  unfold regionVelocity
  rw [rvGo_noconf P pose parts 0 0 c h]
  simp

lemma updatePoseFactors_keeps (P : Prims) (h : ℚ) (pose : Pose) (st : PipeState) :
    (updatePoseFactors P h pose st).reg = st.reg ∧
    (updatePoseFactors P h pose st).spine = st.spine ∧
    (updatePoseFactors P h pose st).prevByPart = st.prevByPart ∧
    (updatePoseFactors P h pose st).blockIncomingUntil = st.blockIncomingUntil := by
  by_cases hkp : (filteredKp pose).length = 0 <;>
    refine ⟨?_, ?_, ?_, ?_⟩ <;>
      simp [updatePoseFactors, hkp]

lemma couple_armsGuardFail (P : Prims) (pose : Pose) (st : PipeState)
    (h : confidentPos pose .leftWrist = none ∨ confidentPos pose .rightWrist = none ∨
      confidentPos pose .leftShoulder = none ∨ confidentPos pose .rightShoulder = none) :
    (coupleRegionsToPose P pose st).reg .armsHands = st.reg .armsHands := by
  simp only [coupleRegionsToPose, coupleRegionsToPoseAux, armsBlock]
  split
  · rename_i lwP rwP lsP rsP hlw hrw hls hrs
    rcases h with h | h | h | h <;> simp_all
  · rfl

lemma couple_chestGuardFail (P : Prims) (pose : Pose) (st : PipeState)
    (h : confidentPos pose .leftShoulder = none ∨ confidentPos pose .rightShoulder = none) :
    (coupleRegionsToPose P pose st).reg .chest = st.reg .chest := by
  simp only [coupleRegionsToPose, coupleRegionsToPoseAux, chestBlock]
  split
  · rename_i lsP rsP hls hrs
    rcases h with h | h <;> simp_all
  · rfl

lemma couple_spineGuardFail (P : Prims) (pose : Pose) (st : PipeState)
    (h : confidentPos pose .leftShoulder = none ∨ confidentPos pose .rightShoulder = none) :
    (coupleRegionsToPose P pose st).spine = st.spine := by
  simp only [coupleRegionsToPose, coupleRegionsToPoseAux, spineBlock]
  split
  · rename_i lsP rsP hls hrs
    rcases h with h | h <;> simp_all
  · rfl

lemma couple_abdomenGuardFail (P : Prims) (pose : Pose) (st : PipeState)
    (h : confidentPos pose .leftShoulder = none ∨ confidentPos pose .rightShoulder = none ∨
      confidentPos pose .leftHip = none ∨ confidentPos pose .rightHip = none) :
    (coupleRegionsToPose P pose st).reg .abdomen = st.reg .abdomen := by
  simp only [coupleRegionsToPose, coupleRegionsToPoseAux, abdomenBlock]
  split
  · rename_i lsP rsP lhP rhP hls hrs hlh hrh
    rcases h with h | h | h | h <;> simp_all
  · rfl

lemma couple_legsGuardFail (P : Prims) (pose : Pose) (st : PipeState)
    (h : confidentPos pose .leftAnkle = none ∨ confidentPos pose .rightAnkle = none ∨
      confidentPos pose .leftHip = none ∨ confidentPos pose .rightHip = none) :
    (coupleRegionsToPose P pose st).reg .legsFeet = st.reg .legsFeet := by
  simp only [coupleRegionsToPose, coupleRegionsToPoseAux, legsBlock]
  split
  · rename_i laP raP lhP rhP hla hra hlh hrh
    rcases h with h | h | h | h <;> simp_all
  · rfl

lemma couple_headNoconf (P : Prims) (pose : Pose) (st : PipeState)
    (h : ∀ m ∈ regionKeypoints Region.head, confidentPos pose m = none) :
    (coupleRegionsToPose P pose st).reg .head
      = lerp (st.reg .head) 0 TUNE.headLerp := by
  simp only [coupleRegionsToPose, coupleRegionsToPoseAux]
  rw [regionVelocity_noconf P pose _ st.prevByPart h]
  have hval : constrain (mapRange 0 TUNE.headVelMin TUNE.headVelMax 0 5) 0 5 = 0 := by
    norm_num [constrain, mapRange, TUNE.headVelMin, TUNE.headVelMax, min_def, max_def]
  rw [hval]

lemma couple_neckNoconf (P : Prims) (pose : Pose) (st : PipeState)
    (h : ∀ m ∈ regionKeypoints Region.neck, confidentPos pose m = none) :
    (coupleRegionsToPose P pose st).reg .neck
      = lerp (st.reg .neck) 0 TUNE.neckLerp := by
  simp only [coupleRegionsToPose, coupleRegionsToPoseAux]
  rw [regionVelocity_noconf P pose _ _ h]
  have hval : constrain (mapRange 0 TUNE.neckVelMin TUNE.neckVelMax 0 5) 0 5 = 0 := by
    norm_num [constrain, mapRange, TUNE.neckVelMin, TUNE.neckVelMax, min_def, max_def]
  rw [hval]

lemma couple_head_eq (P : Prims) (pose : Pose) (st : PipeState) :
    (coupleRegionsToPose P pose st).reg .head
      = lerp (st.reg .head)
          (constrain (mapRange
            (regionVelocity P pose (regionKeypoints .head) st.prevByPart).1
            TUNE.headVelMin TUNE.headVelMax 0 5) 0 5)
          TUNE.headLerp := rfl

lemma c4conf1 : ∀ m, confidentPos c4pose1 m
    = if m = PartName.nose then some ⟨0, 0⟩ else none := by
  have hsc : (decide (TUNE.kpMinScore < (1 : ℚ))) = true := by
    rw [decide_eq_true_eq]; norm_num [TUNE.kpMinScore]
  intro m
  cases m <;> simp [confidentPos, c4pose1, List.find?, hsc]

lemma c4conf2 : ∀ m, confidentPos c4pose2 m
    = if m = PartName.nose then some ⟨56, 0⟩ else none := by
  have hsc : (decide (TUNE.kpMinScore < (1 : ℚ))) = true := by
    rw [decide_eq_true_eq]; norm_num [TUNE.kpMinScore]
  intro m
  cases m <;> simp [confidentPos, c4pose2, List.find?, hsc]

lemma c4conf3 : ∀ m, confidentPos c4pose3 m = none := by
  intro m
  simp [confidentPos, c4pose3, List.find?]

lemma diag_taxi : diagOf taxi = 1120 := by
  norm_num [diagOf, taxi]

lemma c4st1_head : c4st1.reg .head = 0 := by
  unfold c4st1 detectionTick
  obtain ⟨hreg, _, hcache, _⟩ := updatePoseFactors_keeps taxi 480 c4pose1 initState
  rw [couple_head_eq, hreg, hcache]
  have hrv : (regionVelocity taxi c4pose1 (regionKeypoints .head) initState.prevByPart).1 = 0 := by
    simp [regionVelocity, rvGo, regionKeypoints, c4conf1, initState, Function.update_apply]
  rw [hrv]
  norm_num [lerp, constrain, mapRange, initState, TUNE.headVelMin, TUNE.headVelMax,
    TUNE.headLerp, min_def, max_def]

lemma c4st1_cache_nose : c4st1.prevByPart PartName.nose = some ⟨0, 0⟩ := by
  unfold c4st1 detectionTick
  obtain ⟨hreg, _, hcache, _⟩ := updatePoseFactors_keeps taxi 480 c4pose1 initState
  simp only [coupleRegionsToPose, coupleRegionsToPoseAux, armsBlock, chestBlock,
    abdomenBlock, legsBlock, c4conf1]
  simp only [regionVelocity, rvGo, regionKeypoints, c4conf1, hcache]
  simp [initState, Function.update_apply]

lemma c4st2_head : c4st2.reg .head = 1 / 2 := by
  unfold c4st2 detectionTick
  obtain ⟨hreg, _, hcache, _⟩ := updatePoseFactors_keeps taxi 480 c4pose2 c4st1
  rw [couple_head_eq, hreg, hcache, c4st1_head]
  have hrv : (regionVelocity taxi c4pose2 (regionKeypoints .head) c4st1.prevByPart).1
      = 1 / 20 := by
    simp only [regionVelocity, rvGo, regionKeypoints, c4conf2, c4st1_cache_nose]
    simp only [diag_taxi]
    simp [c4conf2, Function.update_apply, taxi]
    norm_num
  rw [hrv]
  norm_num [lerp, constrain, mapRange, TUNE.headVelMin, TUNE.headVelMax,
    TUNE.headLerp, min_def, max_def]

lemma filteredKp_c4pose3 : filteredKp c4pose3 = [] := by
  simp [filteredKp, c4pose3]

lemma c4st3_head : c4st3.reg .head = 9 / 20 := by
  unfold c4st3 detectionTick
  have hupf : updatePoseFactors taxi 480 c4pose3 c4st2 = c4st2 := by
    unfold updatePoseFactors
    rw [if_pos (by rw [filteredKp_c4pose3]; rfl)]
  rw [hupf, couple_headNoconf taxi c4pose3 c4st2 (fun m _ => c4conf3 m), c4st2_head]
  norm_num [lerp, TUNE.headLerp]

/-- Claim C4 (amended).  On a detection tick, the four guarded regions
(armsHands, chest, abdomen, legsFeet) and the spine keep their stored
value unchanged when a required keypoint is missing or below the
confidence threshold; but head and neck are updated unconditionally:
when none of their keypoints pass the filter, the region velocity is 0,
the mapped target value is 0, and the stored value decays by its lerp
factor toward 0.  The original claim, that every region keeps its prior
value on missing data, is false for head and neck
(see `c4_missing_keypoints_cex`). -/
theorem c4_missing_keypoints_amended (P : Prims) (hq : ℚ) (pose : Pose) (st : PipeState) :
    ((confidentPos pose .leftWrist = none ∨ confidentPos pose .rightWrist = none ∨
        confidentPos pose .leftShoulder = none ∨ confidentPos pose .rightShoulder = none) →
      (detectionTick P hq pose st).reg .armsHands = st.reg .armsHands) ∧
    ((confidentPos pose .leftShoulder = none ∨ confidentPos pose .rightShoulder = none) →
      (detectionTick P hq pose st).reg .chest = st.reg .chest) ∧
    ((confidentPos pose .leftShoulder = none ∨ confidentPos pose .rightShoulder = none ∨
        confidentPos pose .leftHip = none ∨ confidentPos pose .rightHip = none) →
      (detectionTick P hq pose st).reg .abdomen = st.reg .abdomen) ∧
    ((confidentPos pose .leftAnkle = none ∨ confidentPos pose .rightAnkle = none ∨
        confidentPos pose .leftHip = none ∨ confidentPos pose .rightHip = none) →
      (detectionTick P hq pose st).reg .legsFeet = st.reg .legsFeet) ∧
    ((confidentPos pose .leftShoulder = none ∨ confidentPos pose .rightShoulder = none) →
      (detectionTick P hq pose st).spine = st.spine) ∧
    ((∀ m ∈ regionKeypoints Region.head, confidentPos pose m = none) →
      (detectionTick P hq pose st).reg .head = lerp (st.reg .head) 0 TUNE.headLerp) ∧
    ((∀ m ∈ regionKeypoints Region.neck, confidentPos pose m = none) →
      (detectionTick P hq pose st).reg .neck = lerp (st.reg .neck) 0 TUNE.neckLerp) := by
  obtain ⟨hreg, hspine, hcache, _⟩ := updatePoseFactors_keeps P hq pose st
  unfold detectionTick
  refine ⟨?_, ?_, ?_, ?_, ?_, ?_, ?_⟩
  · intro h; rw [couple_armsGuardFail _ _ _ h, hreg]
  · intro h; rw [couple_chestGuardFail _ _ _ h, hreg]
  · intro h; rw [couple_abdomenGuardFail _ _ _ h, hreg]
  · intro h; rw [couple_legsGuardFail _ _ _ h, hreg]
  · intro h; rw [couple_spineGuardFail _ _ _ h, hspine]
  · intro h; rw [couple_headNoconf _ _ _ h, hreg]
  · intro h; rw [couple_neckNoconf _ _ _ h, hreg]

/-- Claim C4 counterexample.  A three-tick trace: the nose keypoint is
seen at the origin, then seen displaced (head value becomes 1/2), then
every keypoint is missing, after which the head value is 9/20, not the
prior 1/2 — missing data decays the head region toward 0. -/
theorem c4_missing_keypoints_cex :
    c4st2.reg .head = 1 / 2 ∧ c4st3.reg .head = 9 / 20 ∧ (9 / 20 : ℚ) ≠ 1 / 2 := by
  refine ⟨c4st2_head, c4st3_head, by norm_num⟩

/-- Claim C4 witness: the amended theorem applied to a pose with no
confident keypoints, preserving armsHands and decaying head. -/
theorem c4_missing_keypoints_witness :
    (confidentPos c4pose3 PartName.leftWrist = none) ∧
    (∀ m ∈ regionKeypoints Region.head, confidentPos c4pose3 m = none) ∧
    (detectionTick taxi 480 c4pose3 initState).reg .armsHands = initState.reg .armsHands ∧
    (detectionTick taxi 480 c4pose3 initState).reg .head
      = lerp (initState.reg .head) 0 TUNE.headLerp :=
  ⟨c4conf3 _, fun m _ => c4conf3 m,
    (c4_missing_keypoints_amended taxi 480 c4pose3 initState).1 (Or.inl (c4conf3 _)),
    (c4_missing_keypoints_amended taxi 480 c4pose3 initState).2.2.2.2.2.1 (fun m _ => c4conf3 m)⟩

/-- Claim C8 (amended).  The velocity estimator keeps exactly the
keypoints whose confidence is STRICTLY greater than the threshold (a
keypoint at exactly 0.5 is dropped); on a frame whose filtered set is
empty, `updatePoseFactors` returns with the whole state unchanged (both
caches untouched; no velocity value is produced, rather than 0 being
returned), and `regionVelocity` over parts with no confident keypoint
returns 0 with the per-part cache untouched.  The original claim of a
non-strict comparison is false (see `c8_filter_cex`). -/
theorem c8_filter_amended :
    (∀ (pose : Pose) (k : Keypoint),
        k ∈ filteredKp pose ↔ k ∈ pose.keypoints ∧ TUNE.kpMinScore < k.score) ∧
    (∀ (P : Prims) (hq : ℚ) (pose : Pose) (st : PipeState),
        filteredKp pose = [] → updatePoseFactors P hq pose st = st) ∧
    (∀ (P : Prims) (pose : Pose) (parts : List PartName) (c : Cache),
        (∀ name ∈ parts, confidentPos pose name = none) →
        regionVelocity P pose parts c = (0, c)) := by
  refine ⟨?_, ?_, ?_⟩
  · intro pose k
    simp [filteredKp, List.mem_filter]
  · intro P hq pose st h
    unfold updatePoseFactors
    rw [if_pos (by rw [h]; rfl)]
  · intro P pose parts c h
    exact regionVelocity_noconf P pose parts c h

/-- Claim C8 counterexample.  A keypoint with confidence exactly 0.5
(equal to the threshold) is excluded from the filtered set, though the
claim says keypoints at or above the threshold are kept. -/
theorem c8_filter_cex :
    c8kp ∈ c8pose.keypoints ∧ TUNE.kpMinScore ≤ c8kp.score ∧ c8kp ∉ filteredKp c8pose := by
  refine ⟨by simp [c8pose], by norm_num [TUNE.kpMinScore, c8kp], ?_⟩
  have hsc : (decide (TUNE.kpMinScore < (0.5 : ℚ))) = false := by
    rw [decide_eq_false_iff_not]; norm_num [TUNE.kpMinScore]
  simp [filteredKp, c8pose, List.filter, c8kp, hsc]

/-- Claim C8 witness: the empty-filter branches evaluated on a pose
with no keypoints. -/
theorem c8_filter_witness :
    (filteredKp c4pose3 = []) ∧
    (∀ name ∈ regionKeypoints Region.head, confidentPos c4pose3 name = none) ∧
    updatePoseFactors taxi 480 c4pose3 initState = initState ∧
    regionVelocity taxi c4pose3 (regionKeypoints Region.head) initState.prevByPart
      = (0, initState.prevByPart) :=
  ⟨filteredKp_c4pose3, fun m _ => c4conf3 m,
    c8_filter_amended.2.1 taxi 480 c4pose3 initState filteredKp_c4pose3,
    c8_filter_amended.2.2 taxi c4pose3 _ _ (fun m _ => c4conf3 m)⟩

/-- Claim C6 (confirmed).  After `resetAll` at time `t0`, an external
`applySliders` call without the force option at any time
`t < t0 + 600` is dropped, so every emotion entry, region entry and
the spine remain 0, whatever values the call carries. -/
theorem c6_reset_cooldown (st : PipeState) (t0 t : ℚ) (rc : Bool) (em : Emotion → Option ExtNum)
    (rm : Region → Option ExtNum) (sp : Option ExtNum)
    (hlt : t < t0 + RESET_BLOCK_MS) :
    (∀ e, (applySliders t false em rm sp (resetAll t0 rc st)).emo e = 0) ∧
    (∀ r, (applySliders t false em rm sp (resetAll t0 rc st)).reg r = 0) ∧
    (applySliders t false em rm sp (resetAll t0 rc st)).spine = 0 := by
  have happ : applySliders t false em rm sp (resetAll t0 rc st) = resetAll t0 rc st := by
    unfold applySliders
    rw [if_pos]
    simp only [Bool.not_false, Bool.true_and, decide_eq_true_eq, resetAll]
    exact hlt
  rw [happ]
  exact ⟨fun e => rfl, fun r => rfl, rfl⟩

/-- Claim C6 witness: reset at 0, non-zero apply at 100. -/
theorem c6_reset_cooldown_witness :
    ((100 : ℚ) < 0 + RESET_BLOCK_MS) ∧
    ((∀ e, (applySliders 100 false (fun _ => some (ExtNum.finV 3)) (fun _ => some (ExtNum.finV 4)) none
        (resetAll 0 true initState)).emo e = 0) ∧
     (∀ r, (applySliders 100 false (fun _ => some (ExtNum.finV 3)) (fun _ => some (ExtNum.finV 4)) none
        (resetAll 0 true initState)).reg r = 0) ∧
     (applySliders 100 false (fun _ => some (ExtNum.finV 3)) (fun _ => some (ExtNum.finV 4)) none
        (resetAll 0 true initState)).spine = 0) :=
  ⟨by norm_num [RESET_BLOCK_MS],
    c6_reset_cooldown initState 0 100 true _ _ none (by norm_num [RESET_BLOCK_MS])⟩

lemma lerp_mem {a b t : ℚ} (ha0 : 0 ≤ a) (ha5 : a ≤ 5) (hb0 : 0 ≤ b) (hb5 : b ≤ 5)
    (ht0 : 0 ≤ t) (ht1 : t ≤ 1) : 0 ≤ lerp a b t ∧ lerp a b t ≤ 5 := by
  unfold lerp
  constructor <;> nlinarith

lemma constrain_mem (x : ℚ) : 0 ≤ constrain x 0 5 ∧ constrain x 0 5 ≤ 5 := by
  unfold constrain
  exact ⟨le_max_right _ _, max_le (le_trans (min_le_right x 5) (by norm_num)) (by norm_num)⟩

lemma clamp01_mem (x : ℚ) : 0 ≤ clamp01 x ∧ clamp01 x ≤ 1 := by
  unfold clamp01
  exact ⟨le_max_left _ _, max_le (by norm_num) (min_le_left 1 x)⟩

lemma anger_mem (x : ℚ) : 0 ≤ clamp01 x * 5 ∧ clamp01 x * 5 ≤ 5 := by
  obtain ⟨h0, h1⟩ := clamp01_mem x
  constructor <;> nlinarith

set_option maxHeartbeats 2000000 in
lemma updatePoseFactors_inRange (P : Prims) (hq : ℚ) (pose : Pose) (st : PipeState)
    (h : InRange st) : InRange (updatePoseFactors P hq pose st) := by
  obtain ⟨hemo, hreg⟩ := h
  simp only [updatePoseFactors]
  by_cases hkp : (filteredKp pose).length = 0
  · rw [if_pos hkp]
    exact ⟨hemo, hreg⟩
  · rw [if_neg hkp]
    constructor
    · intro e
      have ht0 : (0 : ℚ) ≤ TUNE.blendPoseVsSlider := by norm_num [TUNE.blendPoseVsSlider]
      have ht1 : TUNE.blendPoseVsSlider ≤ 1 := by norm_num [TUNE.blendPoseVsSlider]
      cases e <;> dsimp only <;>
        first
        | exact lerp_mem (hemo _).1 (hemo _).2 (constrain_mem _).1 (constrain_mem _).2 ht0 ht1
        | exact lerp_mem (hemo _).1 (hemo _).2 (anger_mem _).1 (anger_mem _).2 ht0 ht1
    · intro r
      exact hreg r

set_option maxHeartbeats 2000000 in
lemma couple_inRange (P : Prims) (pose : Pose) (st : PipeState)
    (h : InRange st) : InRange (coupleRegionsToPose P pose st) := by
  obtain ⟨hemo, hreg⟩ := h
  simp only [coupleRegionsToPose, coupleRegionsToPoseAux]
  constructor
  · intro e
    exact hemo e
  · intro r
    cases r <;> dsimp only
    case head =>
      exact lerp_mem (hreg _).1 (hreg _).2 (constrain_mem _).1 (constrain_mem _).2
        (by norm_num [TUNE.headLerp]) (by norm_num [TUNE.headLerp])
    case neck =>
      exact lerp_mem (hreg _).1 (hreg _).2 (constrain_mem _).1 (constrain_mem _).2
        (by norm_num [TUNE.neckLerp]) (by norm_num [TUNE.neckLerp])
    case armsHands =>
      simp only [armsBlock]
      split
      · exact lerp_mem (hreg _).1 (hreg _).2 (constrain_mem _).1 (constrain_mem _).2
          (by norm_num [TUNE.armsLerp]) (by norm_num [TUNE.armsLerp])
      · exact hreg _
    case chest =>
      simp only [chestBlock]
      split
      · exact lerp_mem (hreg _).1 (hreg _).2 (constrain_mem _).1 (constrain_mem _).2
          (by norm_num [TUNE.chestLerp]) (by norm_num [TUNE.chestLerp])
      · exact hreg _
    case abdomen =>
      simp only [abdomenBlock]
      split
      · exact lerp_mem (hreg _).1 (hreg _).2 (constrain_mem _).1 (constrain_mem _).2
          (by norm_num [TUNE.abdomenLerp]) (by norm_num [TUNE.abdomenLerp])
      · exact hreg _
    case legsFeet =>
      simp only [legsBlock]
      split
      · exact lerp_mem (hreg _).1 (hreg _).2 (constrain_mem _).1 (constrain_mem _).2
          (by norm_num [TUNE.legsLerp]) (by norm_num [TUNE.legsLerp])
      · exact hreg _

lemma applySliders_inRange (t : ℚ) (force : Bool) (em : Emotion → Option ExtNum)
    (rm : Region → Option ExtNum) (sp : Option ExtNum) (st : PipeState)
    (hem : ∀ e, okVal (em e)) (hrm : ∀ r, okVal (rm r)) (h : InRange st) :
    InRange (applySliders t force em rm sp st) := by
  obtain ⟨hemo, hreg⟩ := h
  unfold applySliders
  split
  · exact ⟨hemo, hreg⟩
  · constructor
    · intro e
      dsimp only
      cases hv : em e with
      | none => simpa using hemo e
      | some v =>
        simp only [hv]
        cases v with
        | nanV =>
          exact lerp_mem (hemo e).1 (hemo e).2 (by norm_num [numOr0]) (by norm_num [numOr0])
            (by norm_num) (by norm_num)
        | finV q =>
          have hb := hem e
          rw [hv] at hb
          simp only [okVal] at hb
          exact lerp_mem (hemo e).1 (hemo e).2 (by simpa [numOr0] using hb.1)
            (by simpa [numOr0] using hb.2) (by norm_num) (by norm_num)
    · intro r
      dsimp only
      cases hv : rm r with
      | none => simpa using hreg r
      | some v =>
        simp only [hv]
        cases v with
        | nanV =>
          exact lerp_mem (hreg r).1 (hreg r).2 (by norm_num [numOr0]) (by norm_num [numOr0])
            (by norm_num) (by norm_num)
        | finV q =>
          have hb := hrm r
          rw [hv] at hb
          simp only [okVal] at hb
          exact lerp_mem (hreg r).1 (hreg r).2 (by simpa [numOr0] using hb.1)
            (by simpa [numOr0] using hb.2) (by norm_num) (by norm_num)

lemma resetAll_inRange (t : ℚ) (rc : Bool) (st : PipeState) :
    InRange (resetAll t rc st) :=
  ⟨fun e => by norm_num [resetAll], fun r => by norm_num [resetAll]⟩

lemma execStep_inRange (P : Prims) (hq : ℚ) (s : Step) (st : PipeState)
    (hok : OkStep P s) (h : InRange st) : InRange (execStep P hq s st) := by
  cases s with
  | tick pose =>
    exact couple_inRange _ _ _ (updatePoseFactors_inRange _ _ _ _ h)
  | applyStep t f em rm sp =>
    exact applySliders_inRange _ _ _ _ _ _ hok.1 hok.2 h
  | resetStep t rc =>
    exact resetAll_inRange _ _ _

/-- Claim C3 (amended).  Starting from any state whose emotion and
region sliders lie in the interval 0 to 5, any sequence of detection
ticks, resets, and external applies keeps every emotion and region
slider in 0 to 5, provided every supplied external value is NaN (dropped
to 0 by the `Number(v) || 0` coercion) or finite in 0 to 5, and every
tick pose has a nonzero shoulder span.  The original claim fails in
three ways: `applySliders` does not clamp, so a finite out-of-range
value lands outside 0 to 5 (see `c3_range_invariant_cex`); for the same
reason an externally supplied Infinity — which `|| 0` keeps, Infinity
being truthy — is stored unclamped (outside this rational model, see
`ExtNum`); and on a pose with coincident shoulders the unguarded span
divisions of `updatePoseFactors` and the chest block produce NaN from a
zero numerator, which passes `constrain` and `lerp` into the joy or
chest store (outside this rational model, see `SpanOk`). -/
theorem c3_range_invariant_amended (P : Prims) (hq : ℚ) (hpos : 0 < hq) (steps : List Step) :
    ∀ st : PipeState, InRange st → (∀ s ∈ steps, OkStep P s) →
    InRange (execSteps P hq steps st) := by
  induction steps with
  | nil => intro st h _; exact h
  | cons s rest ih =>
    intro st h hok
    exact ih (execStep P hq s st) (execStep_inRange P hq s st (hok s (by simp)) h)
      (fun x hx => hok x (by simp [hx]))

/-- Claim C3 counterexample.  A single external apply of the finite
value 100 to anxiety, from the all-zero initial state and outside any
cooldown, stores `lerp(0, 100, 0.35) = 35`, which exceeds 5. -/
theorem c3_range_invariant_cex :
    (applySliders 0 false (fun e => if e = Emotion.anxiety then some (ExtNum.finV 100) else none)
        (fun _ => none) none initState).emo Emotion.anxiety = 35 ∧
    ¬ ((35 : ℚ) ≤ 5) := by
  constructor
  · have hc : (!false && decide ((0:ℚ) < initState.blockIncomingUntil)) = false := by
      simp [initState]
    unfold applySliders
    rw [hc]
    norm_num [lerp, numOr0, initState]
  · norm_num

/-- Claim C3 witness: the amended invariant run on a concrete step list
containing an in-range apply together with a NaN entry, a detection tick
on a pose with a nonzero shoulder span, and a reset. -/
theorem c3_range_invariant_witness :
    ((0 : ℚ) < 480) ∧ InRange initState ∧
    (∀ s ∈ [Step.applyStep 50 false (fun _ => some (ExtNum.finV 5))
          (fun _ => some ExtNum.nanV) none,
        Step.tick c3pose, Step.resetStep 1000 true], OkStep taxi s) ∧
    InRange (execSteps taxi 480
      [Step.applyStep 50 false (fun _ => some (ExtNum.finV 5))
          (fun _ => some ExtNum.nanV) none,
        Step.tick c3pose, Step.resetStep 1000 true] initState) := by
  have hok : ∀ s ∈ [Step.applyStep 50 false (fun _ => some (ExtNum.finV 5))
          (fun _ => some ExtNum.nanV) none,
        Step.tick c3pose, Step.resetStep 1000 true], OkStep taxi s := by
    intro s hs
    simp only [List.mem_cons, List.mem_singleton] at hs
    rcases hs with rfl | rfl | rfl | h
    · exact ⟨fun e => by norm_num [okVal], fun r => by simp [okVal]⟩
    · show SpanOk taxi c3pose
      refine ⟨by norm_num [taxi, c3pose, zeroPt], ?_⟩
      intro lsP rsP hconf _
      simp [confidentPos, c3pose, List.find?] at hconf
    · trivial
    · simp at h
  refine ⟨by norm_num, ⟨fun e => by norm_num [initState], fun r => by norm_num [initState]⟩,
    hok, ?_⟩
  exact c3_range_invariant_amended taxi 480 (by norm_num) _ initState
    ⟨fun e => by norm_num [initState], fun r => by norm_num [initState]⟩ hok

lemma syncAt_of_noconf {pose : Pose} {c : Cache} {m : PartName}
    (h : confidentPos pose m = none) : syncAt pose c m := by
  intro pt hpt
  rw [h] at hpt
  cases hpt

lemma syncAt_update {pose : Pose} {c : Cache} {m : PartName} (name : PartName) (pt : Point)
    (hconf : confidentPos pose name = some pt) (h : syncAt pose c m) :
    syncAt pose (Function.update c name (some pt)) m := by
  intro pt' h'
  by_cases hm : m = name
  · subst hm
    rw [Function.update_same]
    rw [h'] at hconf
    exact hconf.symm
  · rw [Function.update_noteq hm]
    exact h pt' h'

lemma syncAt_update_self {pose : Pose} {c : Cache} (name : PartName) (pt : Point)
    (hconf : confidentPos pose name = some pt) :
    syncAt pose (Function.update c name (some pt)) name := by
  intro pt' h'
  rw [Function.update_same]
  rw [h'] at hconf
  exact hconf.symm

lemma rvGo_syncAt_preserve (P : Prims) (pose : Pose) :
    ∀ (parts : List PartName) (s : ℚ) (n : ℕ) (c : Cache) (m : PartName),
    syncAt pose c m → syncAt pose (rvGo P pose parts s n c).2.2 m := by
  intro parts
  induction parts with
  | nil => intro s n c m h; exact h
  | cons name rest ih =>
    intro s n c m h
    cases hconf : confidentPos pose name with
    | none =>
      simp only [rvGo, hconf]
      exact ih _ _ _ _ h
    | some pt =>
      simp only [rvGo, hconf]
      cases hc : c name with
      | none =>
        simp only [hc]
        exact ih _ _ _ _ (syncAt_update name pt hconf h)
      | some prev =>
        simp only [hc]
        exact ih _ _ _ _ (syncAt_update name pt hconf h)

lemma rvGo_syncAt_mem (P : Prims) (pose : Pose) :
    ∀ (parts : List PartName) (s : ℚ) (n : ℕ) (c : Cache) (m : PartName),
    m ∈ parts → syncAt pose (rvGo P pose parts s n c).2.2 m := by
  intro parts
  induction parts with
  | nil => intro s n c m hm; cases hm
  | cons name rest ih =>
    intro s n c m hm
    rcases List.mem_cons.mp hm with rfl | hm'
    · cases hconf : confidentPos pose m with
      | none => exact syncAt_of_noconf hconf
      | some pt =>
        simp only [rvGo, hconf]
        cases hc : c m with
        | none =>
          simp only [hc]
          exact rvGo_syncAt_preserve P pose _ _ _ _ _ (syncAt_update_self m pt hconf)
        | some prev =>
          simp only [hc]
          exact rvGo_syncAt_preserve P pose _ _ _ _ _ (syncAt_update_self m pt hconf)
    · cases hconf : confidentPos pose name with
      | none =>
        simp only [rvGo, hconf]
        exact ih _ _ _ _ hm'
      | some pt =>
        simp only [rvGo, hconf]
        cases hc : c name with
        | none =>
          simp only [hc]
          exact ih _ _ _ _ hm'
        | some prev =>
          simp only [hc]
          exact ih _ _ _ _ hm'

lemma rvGo_sum_sync (P : Prims) (pose : Pose) (h00 : P.hypot 0 0 = 0) :
    ∀ (parts : List PartName) (s : ℚ) (n : ℕ) (c : Cache),
    (∀ m ∈ parts, syncAt pose c m) → (rvGo P pose parts s n c).1 = s := by
  intro parts
  induction parts with
  | nil => intro s n c _; rfl
  | cons name rest ih =>
    intro s n c h
    cases hconf : confidentPos pose name with
    | none =>
      simp only [rvGo, hconf]
      exact ih _ _ _ (fun m hm => h m (by simp [hm]))
    | some pt =>
      have hcn : c name = some pt := h name (by simp) pt hconf
      simp only [rvGo, hconf, hcn]
      have hterm : P.hypot ((pt.x - pt.x) / diagOf P) ((pt.y - pt.y) / diagOf P) = 0 := by
        simpa using h00
      rw [hterm, add_zero]
      exact ih _ _ _ (fun m hm => syncAt_update name pt hconf (h m (by simp [hm])))

lemma regionVelocity_syncAt_preserve (P : Prims) (pose : Pose) (parts : List PartName)
    (c : Cache) (m : PartName) (h : syncAt pose c m) :
    syncAt pose (regionVelocity P pose parts c).2 m :=
  rvGo_syncAt_preserve P pose parts 0 0 c m h

lemma regionVelocity_syncAt_mem (P : Prims) (pose : Pose) (parts : List PartName)
    (c : Cache) (m : PartName) (hm : m ∈ parts) :
    syncAt pose (regionVelocity P pose parts c).2 m :=
  rvGo_syncAt_mem P pose parts 0 0 c m hm

lemma regionVelocity_sync_zero (P : Prims) (pose : Pose) (parts : List PartName)
    (c : Cache) (h00 : P.hypot 0 0 = 0) (h : ∀ m ∈ parts, syncAt pose c m) :
    (regionVelocity P pose parts c).1 = 0 := by
  simp only [regionVelocity]
  rw [rvGo_sum_sync P pose h00 parts 0 0 c h]
  split <;> simp

lemma armsBlock_cache_preserve (P : Prims) (pose : Pose) (cur : ℚ) (c : Cache)
    (m : PartName) (h : syncAt pose c m) :
    syncAt pose (armsBlock P pose cur c).2.2 m := by
  unfold armsBlock
  split
  · exact regionVelocity_syncAt_preserve P pose _ c m h
  · exact h

lemma armsBlock_cache_mem (P : Prims) (pose : Pose) (cur : ℚ) (c : Cache)
    (m : PartName) (hg : armsGuardP pose) (hm : m ∈ regionKeypoints .armsHands) :
    syncAt pose (armsBlock P pose cur c).2.2 m := by
  unfold armsBlock
  split
  · exact regionVelocity_syncAt_mem P pose _ c m hm
  · rename_i hwild
    obtain ⟨p1, h1⟩ := Option.isSome_iff_exists.mp hg.1
    obtain ⟨p2, h2⟩ := Option.isSome_iff_exists.mp hg.2.1
    obtain ⟨p3, h3⟩ := Option.isSome_iff_exists.mp hg.2.2.1
    obtain ⟨p4, h4⟩ := Option.isSome_iff_exists.mp hg.2.2.2
    exact (hwild p1 p2 p3 p4 h1 h2 h3 h4).elim

lemma chestBlock_cache_preserve (P : Prims) (pose : Pose) (cur : ℚ) (c : Cache)
    (m : PartName) (h : syncAt pose c m) :
    syncAt pose (chestBlock P pose cur c).2.2 m := by
  unfold chestBlock
  split
  · exact regionVelocity_syncAt_preserve P pose _ c m h
  · exact h

lemma chestBlock_cache_mem (P : Prims) (pose : Pose) (cur : ℚ) (c : Cache)
    (m : PartName) (hg : chestGuardP pose) (hm : m ∈ regionKeypoints .chest) :
    syncAt pose (chestBlock P pose cur c).2.2 m := by
  unfold chestBlock
  split
  · exact regionVelocity_syncAt_mem P pose _ c m hm
  · rename_i hwild
    obtain ⟨p1, h1⟩ := Option.isSome_iff_exists.mp hg.1
    obtain ⟨p2, h2⟩ := Option.isSome_iff_exists.mp hg.2
    exact (hwild p1 p2 h1 h2).elim

lemma abdomenBlock_cache_preserve (P : Prims) (pose : Pose) (cur : ℚ) (c : Cache)
    (m : PartName) (h : syncAt pose c m) :
    syncAt pose (abdomenBlock P pose cur c).2.2 m := by
  unfold abdomenBlock
  split
  · exact regionVelocity_syncAt_preserve P pose _ c m h
  · exact h

lemma abdomenBlock_cache_mem (P : Prims) (pose : Pose) (cur : ℚ) (c : Cache)
    (m : PartName) (hg : abdomenGuardP pose) (hm : m ∈ regionKeypoints .abdomen) :
    syncAt pose (abdomenBlock P pose cur c).2.2 m := by
  unfold abdomenBlock
  split
  · exact regionVelocity_syncAt_mem P pose _ c m hm
  · rename_i hwild
    obtain ⟨p1, h1⟩ := Option.isSome_iff_exists.mp hg.1
    obtain ⟨p2, h2⟩ := Option.isSome_iff_exists.mp hg.2.1
    obtain ⟨p3, h3⟩ := Option.isSome_iff_exists.mp hg.2.2.1
    obtain ⟨p4, h4⟩ := Option.isSome_iff_exists.mp hg.2.2.2
    exact (hwild p1 p2 p3 p4 h1 h2 h3 h4).elim

lemma legsBlock_cache_preserve (P : Prims) (pose : Pose) (cur : ℚ) (c : Cache)
    (m : PartName) (h : syncAt pose c m) :
    syncAt pose (legsBlock P pose cur c).2.2 m := by
  unfold legsBlock
  split
  · exact regionVelocity_syncAt_preserve P pose _ c m h
  · exact h

lemma legsBlock_cache_mem (P : Prims) (pose : Pose) (cur : ℚ) (c : Cache)
    (m : PartName) (hg : legsGuardP pose) (hm : m ∈ regionKeypoints .legsFeet) :
    syncAt pose (legsBlock P pose cur c).2.2 m := by
  unfold legsBlock
  split
  · exact regionVelocity_syncAt_mem P pose _ c m hm
  · rename_i hwild
    obtain ⟨p1, h1⟩ := Option.isSome_iff_exists.mp hg.1
    obtain ⟨p2, h2⟩ := Option.isSome_iff_exists.mp hg.2.1
    obtain ⟨p3, h3⟩ := Option.isSome_iff_exists.mp hg.2.2.1
    obtain ⟨p4, h4⟩ := Option.isSome_iff_exists.mp hg.2.2.2
    exact (hwild p1 p2 p3 p4 h1 h2 h3 h4).elim

lemma armsBlock_vel_some_guard (P : Prims) (pose : Pose) (cur : ℚ) (c : Cache)
    (v : ℚ) (hv : (armsBlock P pose cur c).1 = some v) : armsGuardP pose := by
  unfold armsBlock at hv
  unfold armsGuardP
  split at hv
  · rename_i q1 q2 q3 q4 e1 e2 e3 e4
    simp [e1, e2, e3, e4]
  · cases hv

lemma armsBlock_vel_zero (P : Prims) (pose : Pose) (cur : ℚ) (c : Cache)
    (v : ℚ) (h00 : P.hypot 0 0 = 0)
    (hsync : ∀ m ∈ regionKeypoints Region.armsHands, syncAt pose c m)
    (hv : (armsBlock P pose cur c).1 = some v) : v = 0 := by
  unfold armsBlock at hv
  split at hv
  · have := regionVelocity_sync_zero P pose (regionKeypoints Region.armsHands) c h00 hsync
    simp only [Option.some.injEq] at hv
    rw [← hv, this]
  · cases hv

lemma chestBlock_vel_some_guard (P : Prims) (pose : Pose) (cur : ℚ) (c : Cache)
    (v : ℚ) (hv : (chestBlock P pose cur c).1 = some v) : chestGuardP pose := by
  unfold chestBlock at hv
  unfold chestGuardP
  split at hv
  · rename_i q1 q2 e1 e2
    simp [e1, e2]
  · cases hv

lemma chestBlock_vel_zero (P : Prims) (pose : Pose) (cur : ℚ) (c : Cache)
    (v : ℚ) (h00 : P.hypot 0 0 = 0)
    (hsync : ∀ m ∈ regionKeypoints Region.chest, syncAt pose c m)
    (hv : (chestBlock P pose cur c).1 = some v) : v = 0 := by
  unfold chestBlock at hv
  split at hv
  · have := regionVelocity_sync_zero P pose (regionKeypoints Region.chest) c h00 hsync
    simp only [Option.some.injEq] at hv
    rw [← hv, this]
  · cases hv

lemma abdomenBlock_vel_some_guard (P : Prims) (pose : Pose) (cur : ℚ) (c : Cache)
    (v : ℚ) (hv : (abdomenBlock P pose cur c).1 = some v) : abdomenGuardP pose := by
  unfold abdomenBlock at hv
  unfold abdomenGuardP
  split at hv
  · rename_i q1 q2 q3 q4 e1 e2 e3 e4
    simp [e1, e2, e3, e4]
  · cases hv

lemma abdomenBlock_vel_zero (P : Prims) (pose : Pose) (cur : ℚ) (c : Cache)
    (v : ℚ) (h00 : P.hypot 0 0 = 0)
    (hsync : ∀ m ∈ regionKeypoints Region.abdomen, syncAt pose c m)
    (hv : (abdomenBlock P pose cur c).1 = some v) : v = 0 := by
  unfold abdomenBlock at hv
  split at hv
  · have := regionVelocity_sync_zero P pose (regionKeypoints Region.abdomen) c h00 hsync
    simp only [Option.some.injEq] at hv
    rw [← hv, this]
  · cases hv

lemma legsBlock_vel_some_guard (P : Prims) (pose : Pose) (cur : ℚ) (c : Cache)
    (v : ℚ) (hv : (legsBlock P pose cur c).1 = some v) : legsGuardP pose := by
  unfold legsBlock at hv
  unfold legsGuardP
  split at hv
  · rename_i q1 q2 q3 q4 e1 e2 e3 e4
    simp [e1, e2, e3, e4]
  · cases hv

lemma legsBlock_vel_zero (P : Prims) (pose : Pose) (cur : ℚ) (c : Cache)
    (v : ℚ) (h00 : P.hypot 0 0 = 0)
    (hsync : ∀ m ∈ regionKeypoints Region.legsFeet, syncAt pose c m)
    (hv : (legsBlock P pose cur c).1 = some v) : v = 0 := by
  unfold legsBlock at hv
  split at hv
  · have := regionVelocity_sync_zero P pose (regionKeypoints Region.legsFeet) c h00 hsync
    simp only [Option.some.injEq] at hv
    rw [← hv, this]
  · cases hv

lemma couple_cache_eq (P : Prims) (pose : Pose) (st : PipeState) :
    (coupleRegionsToPose P pose st).prevByPart
      = (legsBlock P pose (st.reg .legsFeet)
          (abdomenBlock P pose (st.reg .abdomen)
            (chestBlock P pose (st.reg .chest)
              (armsBlock P pose (st.reg .armsHands)
                (regionVelocity P pose (regionKeypoints .neck)
                  (regionVelocity P pose (regionKeypoints .head) st.prevByPart).2).2).2.2).2.2).2.2).2.2 := rfl

lemma couple_vels_head (P : Prims) (pose : Pose) (st : PipeState) :
    (coupleRegionsToPoseAux P pose st).2 .head
      = some (regionVelocity P pose (regionKeypoints .head) st.prevByPart).1 := rfl

lemma couple_vels_neck (P : Prims) (pose : Pose) (st : PipeState) :
    (coupleRegionsToPoseAux P pose st).2 .neck
      = some (regionVelocity P pose (regionKeypoints .neck)
          (regionVelocity P pose (regionKeypoints .head) st.prevByPart).2).1 := rfl

lemma couple_vels_arms (P : Prims) (pose : Pose) (st : PipeState) :
    (coupleRegionsToPoseAux P pose st).2 .armsHands
      = (armsBlock P pose (st.reg .armsHands)
          (regionVelocity P pose (regionKeypoints .neck)
            (regionVelocity P pose (regionKeypoints .head) st.prevByPart).2).2).1 := rfl

lemma couple_vels_chest (P : Prims) (pose : Pose) (st : PipeState) :
    (coupleRegionsToPoseAux P pose st).2 .chest
      = (chestBlock P pose (st.reg .chest)
          (armsBlock P pose (st.reg .armsHands)
            (regionVelocity P pose (regionKeypoints .neck)
              (regionVelocity P pose (regionKeypoints .head) st.prevByPart).2).2).2.2).1 := rfl

lemma couple_vels_abdomen (P : Prims) (pose : Pose) (st : PipeState) :
    (coupleRegionsToPoseAux P pose st).2 .abdomen
      = (abdomenBlock P pose (st.reg .abdomen)
          (chestBlock P pose (st.reg .chest)
            (armsBlock P pose (st.reg .armsHands)
              (regionVelocity P pose (regionKeypoints .neck)
                (regionVelocity P pose (regionKeypoints .head) st.prevByPart).2).2).2.2).2.2).1 := rfl

lemma couple_vels_legs (P : Prims) (pose : Pose) (st : PipeState) :
    (coupleRegionsToPoseAux P pose st).2 .legsFeet
      = (legsBlock P pose (st.reg .legsFeet)
          (abdomenBlock P pose (st.reg .abdomen)
            (chestBlock P pose (st.reg .chest)
              (armsBlock P pose (st.reg .armsHands)
                (regionVelocity P pose (regionKeypoints .neck)
                  (regionVelocity P pose (regionKeypoints .head) st.prevByPart).2).2).2.2).2.2).2.2).1 := rfl

lemma couple_cache_sync (P : Prims) (pose : Pose) (st : PipeState) (m : PartName)
    (h : tickReadable pose m) :
    syncAt pose ((coupleRegionsToPose P pose st).prevByPart) m := by
  rw [couple_cache_eq]
  rcases h with hm | hm | ⟨hg, hm⟩ | ⟨hg, hm⟩ | ⟨hg, hm⟩ | ⟨hg, hm⟩
  · exact legsBlock_cache_preserve _ _ _ _ _ (abdomenBlock_cache_preserve _ _ _ _ _
      (chestBlock_cache_preserve _ _ _ _ _ (armsBlock_cache_preserve _ _ _ _ _
        (regionVelocity_syncAt_preserve _ _ _ _ _
          (regionVelocity_syncAt_mem _ _ _ _ _ hm)))))
  · exact legsBlock_cache_preserve _ _ _ _ _ (abdomenBlock_cache_preserve _ _ _ _ _
      (chestBlock_cache_preserve _ _ _ _ _ (armsBlock_cache_preserve _ _ _ _ _
        (regionVelocity_syncAt_mem _ _ _ _ _ hm))))
  · exact legsBlock_cache_preserve _ _ _ _ _ (abdomenBlock_cache_preserve _ _ _ _ _
      (chestBlock_cache_preserve _ _ _ _ _ (armsBlock_cache_mem _ _ _ _ _ hg hm)))
  · exact legsBlock_cache_preserve _ _ _ _ _ (abdomenBlock_cache_preserve _ _ _ _ _
      (chestBlock_cache_mem _ _ _ _ _ hg hm))
  · exact legsBlock_cache_preserve _ _ _ _ _ (abdomenBlock_cache_mem _ _ _ _ _ hg hm)
  · exact legsBlock_cache_mem _ _ _ _ _ hg hm

lemma tick_vels_zero (P : Prims) (pose : Pose) (h00 : P.hypot 0 0 = 0) (st1 : PipeState)
    (hsync : ∀ m, tickReadable pose m → syncAt pose st1.prevByPart m) :
    ∀ r v, (coupleRegionsToPoseAux P pose st1).2 r = some v → v = 0 := by
  intro r v hv
  cases r
  case head =>
    rw [couple_vels_head] at hv
    simp only [Option.some.injEq] at hv
    rw [← hv]
    exact regionVelocity_sync_zero _ _ _ _ h00 (fun m hm => hsync m (Or.inl hm))
  case neck =>
    rw [couple_vels_neck] at hv
    simp only [Option.some.injEq] at hv
    rw [← hv]
    exact regionVelocity_sync_zero _ _ _ _ h00 (fun m hm =>
      regionVelocity_syncAt_preserve _ _ _ _ _ (hsync m (Or.inr (Or.inl hm))))
  case armsHands =>
    rw [couple_vels_arms] at hv
    have hg := armsBlock_vel_some_guard _ _ _ _ _ hv
    exact armsBlock_vel_zero _ _ _ _ _ h00 (fun m hm =>
      regionVelocity_syncAt_preserve _ _ _ _ _ (regionVelocity_syncAt_preserve _ _ _ _ _
        (hsync m (Or.inr (Or.inr (Or.inl ⟨hg, hm⟩)))))) hv
  case chest =>
    rw [couple_vels_chest] at hv
    have hg := chestBlock_vel_some_guard _ _ _ _ _ hv
    exact chestBlock_vel_zero _ _ _ _ _ h00 (fun m hm =>
      armsBlock_cache_preserve _ _ _ _ _ (regionVelocity_syncAt_preserve _ _ _ _ _
        (regionVelocity_syncAt_preserve _ _ _ _ _
          (hsync m (Or.inr (Or.inr (Or.inr (Or.inl ⟨hg, hm⟩)))))))) hv
  case abdomen =>
    rw [couple_vels_abdomen] at hv
    have hg := abdomenBlock_vel_some_guard _ _ _ _ _ hv
    exact abdomenBlock_vel_zero _ _ _ _ _ h00 (fun m hm =>
      chestBlock_cache_preserve _ _ _ _ _ (armsBlock_cache_preserve _ _ _ _ _
        (regionVelocity_syncAt_preserve _ _ _ _ _ (regionVelocity_syncAt_preserve _ _ _ _ _
          (hsync m (Or.inr (Or.inr (Or.inr (Or.inr (Or.inl ⟨hg, hm⟩)))))))))) hv
  case legsFeet =>
    rw [couple_vels_legs] at hv
    have hg := legsBlock_vel_some_guard _ _ _ _ _ hv
    exact legsBlock_vel_zero _ _ _ _ _ h00 (fun m hm =>
      abdomenBlock_cache_preserve _ _ _ _ _ (chestBlock_cache_preserve _ _ _ _ _
        (armsBlock_cache_preserve _ _ _ _ _ (regionVelocity_syncAt_preserve _ _ _ _ _
          (regionVelocity_syncAt_preserve _ _ _ _ _
            (hsync m (Or.inr (Or.inr (Or.inr (Or.inr (Or.inr ⟨hg, hm⟩))))))))))) hv

lemma find?_snapshot_self {kp : List Keypoint} (hnd : (kp.map Keypoint.part).Nodup)
    {k : Keypoint} (hk : k ∈ kp) :
    (snapshotKp kp).find? (fun p => decide (p.part = k.part))
      = some ⟨k.part, k.position⟩ := by
  induction kp with
  | nil => cases hk
  | cons a rest ih =>
    rcases List.mem_cons.mp hk with rfl | hk'
    · simp [snapshotKp, List.find?]
    · have hne : ¬ (a.part = k.part) := by
        intro he
        have hmem : k.part ∈ rest.map Keypoint.part := List.mem_map_of_mem _ hk'
        rw [← he] at hmem
        exact (List.nodup_cons.mp hnd).1 hmem
      simp only [snapshotKp, List.map_cons, List.find?, decide_eq_false hne]
      exact ih (List.nodup_cons.mp hnd).2 hk'

lemma filterMap_const_zero {α : Type} (f : α → Option ℚ) :
    ∀ l : List α, (∀ k ∈ l, f k = some 0) → l.filterMap f = List.replicate l.length 0 := by
  intro l
  induction l with
  | nil => intro _; rfl
  | cons a rest ih =>
    intro h
    simp only [List.filterMap_cons, h a (by simp), List.length_cons, List.replicate_succ]
    rw [ih (fun k hk => h k (by simp [hk]))]

lemma velAvg_snapshot_self (P : Prims) (h00 : P.hypot 0 0 = 0) (kp : List Keypoint)
    (hnd : (kp.map Keypoint.part).Nodup) :
    velAvgCalc P kp (some (snapshotKp kp)) = 0 := by
  simp only [velAvgCalc]
  have hterm : ∀ k ∈ kp,
      (((snapshotKp kp).find? fun p => decide (p.part = k.part)).map fun p =>
        P.hypot ((k.position.x - p.position.x) / diagOf P)
          ((k.position.y - p.position.y) / diagOf P)) = some 0 := by
    intro k hk
    rw [find?_snapshot_self hnd hk]
    simpa using h00
  rw [filterMap_const_zero _ kp hterm]
  split <;> simp [List.sum_replicate]

lemma couple_prevKeypoints (P : Prims) (pose : Pose) (st : PipeState) :
    (coupleRegionsToPose P pose st).prevKeypoints = st.prevKeypoints := rfl

lemma upf_prevKeypoints (P : Prims) (hq : ℚ) (pose : Pose) (st : PipeState)
    (hne : filteredKp pose ≠ []) :
    (updatePoseFactors P hq pose st).prevKeypoints
      = some (snapshotKp (filteredKp pose)) := by
  simp only [updatePoseFactors]
  rw [if_neg (fun h => hne (List.length_eq_zero.mp h))]

/-- Claim C7 (confirmed).  For a detector frame repeated on two
consecutive ticks (identical keypoints, one keypoint per part name), the
raw global velocity computed on the second tick from the snapshot cache
is exactly 0, and every region velocity computed by the second
coupling pass is exactly 0, for any `hypot` with `hypot 0 0 = 0`. -/
theorem c7_zero_displacement (P : Prims) (hq : ℚ) (pose : Pose) (st : PipeState)
    (h00 : P.hypot 0 0 = 0)
    (hnd : ((filteredKp pose).map Keypoint.part).Nodup) :
    (filteredKp pose ≠ [] →
      velAvgCalc P (filteredKp pose) ((detectionTick P hq pose st).prevKeypoints) = 0) ∧
    (∀ r v, (coupleRegionsToPoseAux P pose
        (updatePoseFactors P hq pose (detectionTick P hq pose st))).2 r = some v → v = 0) := by
  constructor
  · intro hne
    have hsnap : (detectionTick P hq pose st).prevKeypoints
        = some (snapshotKp (filteredKp pose)) := by
      unfold detectionTick
      rw [couple_prevKeypoints, upf_prevKeypoints P hq pose st hne]
    rw [hsnap]
    exact velAvg_snapshot_self P h00 _ hnd
  · apply tick_vels_zero P pose h00
    intro m hm
    rw [(updatePoseFactors_keeps P hq pose (detectionTick P hq pose st)).2.2.1]
    exact couple_cache_sync P pose (updatePoseFactors P hq pose st) m hm

lemma couple_chest_vel_zero (P : Prims) (pose : Pose) (st : PipeState)
    (h00 : P.hypot 0 0 = 0)
    (hconf : ∀ m ∈ regionKeypoints Region.chest, (confidentPos pose m).isSome) :
    (coupleRegionsToPoseAux P pose st).2 .chest = some 0 := by
  have hls : (confidentPos pose .leftShoulder).isSome := hconf _ (by simp [regionKeypoints])
  have hrs : (confidentPos pose .rightShoulder).isSome := hconf _ (by simp [regionKeypoints])
  have hle : (confidentPos pose .leftElbow).isSome := hconf _ (by simp [regionKeypoints])
  have hre : (confidentPos pose .rightElbow).isSome := hconf _ (by simp [regionKeypoints])
  have hlw : (confidentPos pose .leftWrist).isSome := hconf _ (by simp [regionKeypoints])
  have hrw : (confidentPos pose .rightWrist).isSome := hconf _ (by simp [regionKeypoints])
  have harms : armsGuardP pose := ⟨hlw, hrw, hls, hrs⟩
  obtain ⟨lsP, hlsP⟩ := Option.isSome_iff_exists.mp hls
  obtain ⟨rsP, hrsP⟩ := Option.isSome_iff_exists.mp hrs
  rw [couple_vels_chest]
  unfold chestBlock
  simp only [hlsP, hrsP]
  congr 1
  apply regionVelocity_sync_zero _ _ _ _ h00
  intro m hm
  have hm6 : m = PartName.leftShoulder ∨ m = PartName.rightShoulder ∨
      m = PartName.leftElbow ∨ m = PartName.rightElbow ∨
      m = PartName.leftWrist ∨ m = PartName.rightWrist := by
    simpa [regionKeypoints] using hm
  rcases hm6 with rfl | rfl | rfl | rfl | rfl | rfl
  · exact armsBlock_cache_preserve _ _ _ _ _
      (regionVelocity_syncAt_mem _ _ _ _ _ (by simp [regionKeypoints]))
  · exact armsBlock_cache_preserve _ _ _ _ _
      (regionVelocity_syncAt_mem _ _ _ _ _ (by simp [regionKeypoints]))
  · exact armsBlock_cache_mem _ _ _ _ _ harms (by simp [regionKeypoints])
  · exact armsBlock_cache_mem _ _ _ _ _ harms (by simp [regionKeypoints])
  · exact armsBlock_cache_mem _ _ _ _ _ harms (by simp [regionKeypoints])
  · exact armsBlock_cache_mem _ _ _ _ _ harms (by simp [regionKeypoints])

lemma c9conf : ∀ m, confidentPos c9pose m
    = if m ∈ regionKeypoints Region.chest then some ⟨0, 0⟩ else none := by
  have hsc : (decide (TUNE.kpMinScore < (1 : ℚ))) = true := by
    rw [decide_eq_true_eq]; norm_num [TUNE.kpMinScore]
  intro m
  cases m <;> simp [confidentPos, c9pose, List.find?, hsc, regionKeypoints]

lemma c9_standalone : (regionVelocity taxi c9pose (regionKeypoints Region.chest)
    c9st.prevByPart).1 = 1 / 6 := by
  have hst : c9st.prevByPart = c9cache := rfl
  rw [hst]
  simp only [regionVelocity, rvGo, regionKeypoints, c9conf]
  simp only [diag_taxi]
  simp [c9cache, Function.update_apply, taxi]

/-- Claim C9 (confirmed).  Because every `regionVelocity` call
overwrites the shared per-part cache, a part read by an earlier region
in the tick contributes zero displacement to later regions: whenever
all six chest parts (shoulders, shared with neck; elbows and wrists,
shared with armsHands) pass the confidence filter, the chest velocity
computed in tick order head, neck, armsHands, chest is `some 0`
regardless of the prior cache; and there is a concrete input where the
same chest velocity computed directly on the pre-tick cache is 1/6,
witnessing the dependence on the fixed evaluation order. -/
theorem c9_shared_cache_order :
    (∀ (P : Prims) (pose : Pose) (st : PipeState), P.hypot 0 0 = 0 →
      (∀ m ∈ regionKeypoints Region.chest, (confidentPos pose m).isSome) →
      (coupleRegionsToPoseAux P pose st).2 .chest = some 0) ∧
    ((regionVelocity taxi c9pose (regionKeypoints Region.chest) c9st.prevByPart).1 = 1 / 6 ∧
      (1 / 6 : ℚ) ≠ 0 ∧
      (coupleRegionsToPoseAux taxi c9pose c9st).2 .chest = some 0) := by
  refine ⟨fun P pose st h00 hconf => couple_chest_vel_zero P pose st h00 hconf,
    c9_standalone, by norm_num, ?_⟩
  exact couple_chest_vel_zero taxi c9pose c9st (by norm_num [taxi])
    (by
      intro m hm
      rw [c9conf m]
      simp [hm])

lemma filteredKp_c4pose1 : filteredKp c4pose1 = [⟨.nose, ⟨0, 0⟩, 1⟩] := by
  have hsc : (decide (TUNE.kpMinScore < (1 : ℚ))) = true := by
    rw [decide_eq_true_eq]; norm_num [TUNE.kpMinScore]
  simp [filteredKp, c4pose1, List.filter, hsc]

/-- Claim C7 witness: two identical ticks of a one-keypoint pose. -/
theorem c7_zero_displacement_witness :
    (taxi.hypot 0 0 = 0) ∧
    (((filteredKp c4pose1).map Keypoint.part).Nodup) ∧
    ((filteredKp c4pose1 ≠ [] →
        velAvgCalc taxi (filteredKp c4pose1)
          ((detectionTick taxi 480 c4pose1 initState).prevKeypoints) = 0) ∧
      (∀ r v, (coupleRegionsToPoseAux taxi c4pose1
          (updatePoseFactors taxi 480 c4pose1
            (detectionTick taxi 480 c4pose1 initState))).2 r = some v → v = 0)) :=
  ⟨by norm_num [taxi], by rw [filteredKp_c4pose1]; simp,
    c7_zero_displacement taxi 480 c4pose1 initState (by norm_num [taxi])
      (by rw [filteredKp_c4pose1]; simp)⟩

/-- Claim C9 witness: the in-tick chest velocity on a fully confident
chest with a stale cache entry. -/
theorem c9_shared_cache_order_witness :
    (taxi.hypot 0 0 = 0) ∧
    (∀ m ∈ regionKeypoints Region.chest, (confidentPos c9pose m).isSome) ∧
    (coupleRegionsToPoseAux taxi c9pose c9st).2 .chest = some 0 :=
  ⟨by norm_num [taxi], by intro m hm; rw [c9conf m]; simp [hm],
    c9_shared_cache_order.1 taxi c9pose c9st (by norm_num [taxi])
      (by intro m hm; rw [c9conf m]; simp [hm])⟩

end EnergyBodies
